import Mathlib

/-!
# Shallow embedding of the quasi-1D flow residual engine (src/src/oneD/StFlow.cpp)

This file embeds the classes `StFlow`, `AxiStagnFlow`, `FreeFlame` and
`PorousFlow` of `src/src/oneD/StFlow.cpp`.  Conventions:

* machine doubles are modelled as exact rationals (`ℚ`);
* `size_t` values are `ℕ`; the one subtraction that can wrap in the source
  (`jg - firstPoint()` in `eval`) is modelled explicitly modulo `2^64`;
* the external property providers (thermodynamic, transport and kinetic
  libraries, which live outside this repository) enter as function-valued
  parameters, mirroring exactly the calls the source makes;
* fallible code (`throw CanteraError`) is modelled with `Except String`;
* member-array mutation is modelled by explicit state records.

Inline accessors of the solution vector (`T`, `Y`, `u`, ...) are declared in
the missing header `StFlow.h`; their layout is fixed by `StFlow.cpp` itself
(the constructor comment "the species mass fractions are the last components
in the solution vector", `m_nv = c_offset_Y + m_nsp`, and `setGas`, which
reads the mass fractions at `x + m_nv*j + c_offset_Y`), together with
`componentName` which fixes `u, V, T, lambda` at offsets `0, 1, 2, 3`.
-/

set_option maxRecDepth 20000

namespace PMB

/-- `m_nv = c_offset_Y + m_nsp` with `c_offset_Y = 4` (StFlow constructor). -/
def nv (nsp : ℕ) : ℕ := nsp + 4

/-- `index(n, j) = m_nv * j + n`: flat position of component `n` at point `j`. -/
def index (nsp n j : ℕ) : ℕ := nv nsp * j + n

/-- Axial mass-flux component `u` (component 0) at point `j`. -/
def compU (nsp : ℕ) (x : ℕ → ℚ) (j : ℕ) : ℚ := x (index nsp 0 j)

/-- Radial velocity component `V` (component 1) at point `j`. -/
def compV (nsp : ℕ) (x : ℕ → ℚ) (j : ℕ) : ℚ := x (index nsp 1 j)

/-- Temperature component `T` (component 2) at point `j`. -/
def compT (nsp : ℕ) (x : ℕ → ℚ) (j : ℕ) : ℚ := x (index nsp 2 j)

/-- Pressure-eigenvalue component `lambda` (component 3) at point `j`. -/
def compL (nsp : ℕ) (x : ℕ → ℚ) (j : ℕ) : ℚ := x (index nsp 3 j)

/-- Species mass fraction `Y(x, k, j)` (component `4 + k`) at point `j`. -/
def compY (nsp : ℕ) (x : ℕ → ℚ) (k j : ℕ) : ℚ := x (index nsp (4 + k) j)

namespace StFlow

/-- The two transport closures selectable by `StFlow::setTransport`
(`c_Mixav_Transport` / `c_Multi_Transport`).  `setTransport` throws on any
other model, so a configured engine always carries one of these two values;
the unset sentinel `-1` (which would make `updateDiffFluxes` throw before
any residual work) is not represented. -/
inductive TransportOption where
  | mixav : TransportOption
  | multi : TransportOption
deriving DecidableEq, Repr

/-- Sizes of the member arrays reallocated by `StFlow::resize`.  The source
resizes `vector_fp`/`Array2D` members; only their sizes are observable to the
claims, so the model records the sizes. -/
structure ResizeSizes where
  rho : ℕ
  wtm : ℕ
  cp : ℕ
  visc : ℕ
  tcon : ℕ
  diff : ℕ
  multidiff : ℕ
  dthermal : ℕ
  flux : ℕ
  wdot : ℕ
  do_energy : ℕ
  qdotRadiation : ℕ
  fixedtemp : ℕ
  dz : ℕ
  z : ℕ
deriving DecidableEq, Repr

/-- `StFlow::resize(ncomponents, points)` (lines 103-127): reallocates every
property, flux, flag and radiation array.  In the mixture-averaged branch only
`m_diff` is resized; otherwise `m_multidiff`, `m_diff` and `m_dthermal` are.
`Domain1D::resize` (outside src/) resizes the per-point solution bookkeeping
of the base class and is not modelled.  The previous sizes are taken as input
because the arrays not mentioned in the taken branch keep their old size. -/
def resize (opt : TransportOption) (nsp points : ℕ) (prev : ResizeSizes) :
    ResizeSizes :=
  { rho := points
    wtm := points
    cp := points
    visc := points
    tcon := points
    diff := nsp * points
    multidiff := match opt with
      | .mixav => prev.multidiff
      | .multi => nsp * nsp * points
    dthermal := match opt with
      | .mixav => prev.dthermal
      | .multi => nsp * points
    flux := nsp * points
    wdot := nsp * points
    do_energy := points
    qdotRadiation := points
    fixedtemp := points
    dz := points - 1
    z := points }

/-- The error message thrown by `StFlow::setupGrid` on a non-monotonic grid. -/
def invalidGridMsg : String := "grid points must be monotonically increasing"

/-- The validation/fill loop of `StFlow::setupGrid` (lines 134-142): after
`m_z[0] = z[0]`, for `j = 1, ..., n-1` it checks `z[j] <= z[j-1]` (throwing
`invalidGridMsg` at the first violation) and stores `m_z[j]` and
`m_dz[j-1] = m_z[j] - m_z[j-1]`.  `gridLoop z m` performs the iterations for
`j = 1, ..., m` and returns the accumulated `(m_z, m_dz)`. -/
def gridLoop (z : ℕ → ℚ) : ℕ → Except String (List ℚ × List ℚ)
  | 0 => .ok ([z 0], [])
  | m + 1 =>
      match gridLoop z m with
      | .error e => .error e
      | .ok acc =>
          if z (m + 1) ≤ z m then .error invalidGridMsg
          else .ok (acc.1 ++ [z (m + 1)], acc.2 ++ [z (m + 1) - z m])

/-- Result of a successful `StFlow::setupGrid`: new array sizes plus the
stored coordinates `m_z` and spacings `m_dz`. -/
structure GridResult where
  sizes : ResizeSizes
  mz : List ℚ
  mdz : List ℚ
deriving DecidableEq, Repr

/-- `StFlow::setupGrid(n, z)` (lines 129-143): calls `resize(m_nv, n)` and
then validates/stores the coordinates.  The source mutates the member arrays
before throwing; since no claim observes the partially-written members after
a throw, the model returns `Except`. -/
def setupGrid (opt : TransportOption) (nsp : ℕ) (prev : ResizeSizes)
    (n : ℕ) (z : ℕ → ℚ) : Except String GridResult :=
  let sz := resize opt nsp n prev
  (gridLoop z (n - 1)).map fun acc => ⟨sz, acc.1, acc.2⟩

/-- A concrete strictly increasing 3-point grid for the C2 witness. -/
def zIncr : ℕ → ℚ := fun j => if j = 0 then 0 else if j = 1 then 1 else 2

/-- A concrete non-monotonic 3-point grid (`z 1 = z 0`) for the C2 witness. -/
def zFlat : ℕ → ℚ := fun j => if j ≤ 1 then 0 else 2

/-- A concrete previous-size record for the C2 witness. -/
def prevSizes : ResizeSizes := ⟨5, 5, 5, 5, 5, 10, 20, 10, 10, 10, 5, 5, 5, 4, 5⟩

end StFlow

/-- The external property providers (`m_thermo`, `m_trans`, `m_kin`), which
live outside this repository.  Each field models one query the source makes
after `setGas`/`setGasAtMidpoint` has set the provider state to
`(pressure, temperature, mass fractions)`; the queries are pure functions of
that state.  `rpow` models `pow(a, b)` with a non-integer exponent (used only
by the porous Nusselt correlation `pow(Re, mpow[j])`). -/
structure Providers where
  density : ℚ → ℚ → (ℕ → ℚ) → ℚ
  meanMolecularWeight : ℚ → ℚ → (ℕ → ℚ) → ℚ
  cp_mass : ℚ → ℚ → (ℕ → ℚ) → ℚ
  viscosity : ℚ → ℚ → (ℕ → ℚ) → ℚ
  thermalConductivity : ℚ → ℚ → (ℕ → ℚ) → ℚ
  mixDiffCoeffs : ℚ → ℚ → (ℕ → ℚ) → ℕ → ℚ
  multiDiffCoeffs : ℚ → ℚ → (ℕ → ℚ) → ℕ → ℕ → ℚ
  thermalDiffCoeffs : ℚ → ℚ → (ℕ → ℚ) → ℕ → ℚ
  netProductionRates : ℚ → ℚ → (ℕ → ℚ) → ℕ → ℚ
  enthalpyRTref : ℚ → ℚ → (ℕ → ℚ) → ℕ → ℚ
  cpRref : ℚ → ℚ → (ℕ → ℚ) → ℕ → ℚ
  rpow : ℚ → ℚ → ℚ

/-- Engine configuration: the `StFlow` members that `eval` and the property
updaters read but do not write, plus the physical constants the source takes
from the base library's `ct_defs.h` (outside src/), plus the `FreeFlame`
anchor fields (read only by the free-flame continuity equation). -/
structure Cfg where
  nsp : ℕ
  points : ℕ
  press : ℚ
  wt : ℕ → ℚ
  z : ℕ → ℚ
  transport_option : StFlow.TransportOption
  do_soret : Bool
  do_radiation : Bool
  epsilon_left : ℚ
  epsilon_right : ℚ
  stefanBoltz : ℚ
  oneAtm : ℚ
  gasConstant : ℚ
  kRadCO2 : Option ℕ
  kRadH2O : Option ℕ
  do_energy : ℕ → Bool
  fixedtemp : ℕ → ℚ
  prevSoln : ℕ → ℚ
  firstPoint : ℕ
  zfixed : ℚ
  tfixed : ℚ
  P : Providers

/-- `m_dz[j] = m_z[j+1] - m_z[j]` (maintained by `setupGrid`). -/
def Cfg.mdz (cfg : Cfg) (j : ℕ) : ℚ := cfg.z (j + 1) - cfg.z j

/-- `lastPoint()`: the global index of this domain's last grid point
(`Domain1D`, outside src/: `firstPoint + points - 1` for the domain's block
of the composite solution). -/
def Cfg.lastPoint (cfg : Cfg) : ℕ := cfg.firstPoint + cfg.points - 1

/-- Mutable per-call engine state: the property/flux caches written by the
updaters and by `eval` (`m_rho`, `m_wtm`, `m_cp`, `m_visc`, `m_tcon`,
`m_diff`, `m_multidiff`, `m_dthermal`, `m_flux`, `m_wdot`,
`m_qdotRadiation`, `m_dovisc`).  Flattened arrays keep the source's flat
indexing (`m_diff[k + m_nsp*j]`). -/
structure St where
  rho : ℕ → ℚ
  wtm : ℕ → ℚ
  cp : ℕ → ℚ
  visc : ℕ → ℚ
  tcon : ℕ → ℚ
  diff : ℕ → ℚ
  multidiff : ℕ → ℚ
  dthermal : ℕ → ℕ → ℚ
  flux : ℕ → ℕ → ℚ
  wdotC : ℕ → ℕ → ℚ
  qdotRad : ℕ → ℚ
  dovisc : Bool

/-- The mass-fraction block of point `j` as a function of the species index
(the provider argument built by `setGas`). -/
def Yfun (nsp : ℕ) (x : ℕ → ℚ) (j : ℕ) : ℕ → ℚ := fun k => compY nsp x k j

/-- Midpoint temperature set by `setGasAtMidpoint`: `0.5*(T(x,j)+T(x,j+1))`. -/
def midT (nsp : ℕ) (x : ℕ → ℚ) (j : ℕ) : ℚ :=
  (compT nsp x j + compT nsp x (j + 1)) / 2

/-- Midpoint composition set by `setGasAtMidpoint`:
`m_ybar[k] = 0.5*(yyj[k] + yyjp[k])`. -/
def midY (nsp : ℕ) (x : ℕ → ℚ) (j : ℕ) : ℕ → ℚ :=
  fun k => (compY nsp x k j + compY nsp x k (j + 1)) / 2

/-- Flat index of `m_multidiff`: `mindex(k, m, j)` from the missing header.
Only consistency between the single writer (`updateTransport`) and the single
reader (`updateDiffFluxes`) is observable; the block-per-point layout
`j*nsp*nsp + m*nsp + k` is used for both. -/
def mindex (nsp k m j : ℕ) : ℕ := j * nsp * nsp + m * nsp + k

/-- Mole-fraction accessor `X(x, k, j)`, declared in the missing header:
`m_wtm[j] * Y(x,k,j) / m_wt[k]` (mean molecular weight cache times mass
fraction over species molecular weight). -/
def Xmole (cfg : Cfg) (st : St) (x : ℕ → ℚ) (k j : ℕ) : ℚ :=
  st.wtm j * compY cfg.nsp x k j / cfg.wt k

/-- `StFlow::updateThermo(x, j0, j1)`.  Modelled from the spec: the updater is
declared in the missing header `StFlow.h`; spec section 4.2 specifies it as
"for each point in `[j0,j1]`, sets the thermodynamic state (temperature,
composition, fixed pressure) from the solution vector, then reads back
density/molecular weight/heat capacity" into `m_rho`, `m_wtm`, `m_cp`. -/
def updateThermo (cfg : Cfg) (x : ℕ → ℚ) (st : St) (j0 j1 : ℕ) : St :=
  { st with
    rho := fun j => if j0 ≤ j ∧ j ≤ j1 then
        cfg.P.density cfg.press (compT cfg.nsp x j) (Yfun cfg.nsp x j)
      else st.rho j
    wtm := fun j => if j0 ≤ j ∧ j ≤ j1 then
        cfg.P.meanMolecularWeight cfg.press (compT cfg.nsp x j) (Yfun cfg.nsp x j)
      else st.wtm j
    cp := fun j => if j0 ≤ j ∧ j ≤ j1 then
        cfg.P.cp_mass cfg.press (compT cfg.nsp x j) (Yfun cfg.nsp x j)
      else st.cp j }

/-- `StFlow::updateTransport(x, j0, j1)` (lines 450-478): for each interval
`j` in `[j0, j1)`, sets the midpoint state and queries the transport model.
Mixture-averaged: viscosity (zero when `m_dovisc` is off), per-species mixture
diffusion coefficients, thermal conductivity.  Multicomponent: additionally
the dense diffusion matrix, the factor `m_wt[k]*rho/wtm^2` cached in `m_diff`,
and (with Soret) the thermal-diffusion coefficients. -/
def updateTransport (cfg : Cfg) (x : ℕ → ℚ) (st : St) (j0 j1 : ℕ) : St :=
  let n := cfg.nsp
  match cfg.transport_option with
  | .mixav =>
      { st with
        visc := fun j => if j0 ≤ j ∧ j < j1 then
            (if st.dovisc then
              cfg.P.viscosity cfg.press (midT n x j) (midY n x j)
            else 0)
          else st.visc j
        diff := fun i =>
          let j := i / n
          let k := i % n
          if j0 ≤ j ∧ j < j1 then
            cfg.P.mixDiffCoeffs cfg.press (midT n x j) (midY n x j) k
          else st.diff i
        tcon := fun j => if j0 ≤ j ∧ j < j1 then
            cfg.P.thermalConductivity cfg.press (midT n x j) (midY n x j)
          else st.tcon j }
  | .multi =>
      { st with
        visc := fun j => if j0 ≤ j ∧ j < j1 then
            (if st.dovisc then
              cfg.P.viscosity cfg.press (midT n x j) (midY n x j)
            else 0)
          else st.visc j
        multidiff := fun i =>
          let j := i / (n * n)
          let r := i % (n * n)
          if j0 ≤ j ∧ j < j1 then
            cfg.P.multiDiffCoeffs cfg.press (midT n x j) (midY n x j)
              (r % n) (r / n)
          else st.multidiff i
        diff := fun i =>
          let j := i / n
          let k := i % n
          if j0 ≤ j ∧ j < j1 then
            cfg.wt k * cfg.P.density cfg.press (midT n x j) (midY n x j) /
              (cfg.P.meanMolecularWeight cfg.press (midT n x j) (midY n x j) *
               cfg.P.meanMolecularWeight cfg.press (midT n x j) (midY n x j))
          else st.diff i
        tcon := fun j => if j0 ≤ j ∧ j < j1 then
            cfg.P.thermalConductivity cfg.press (midT n x j) (midY n x j)
          else st.tcon j
        dthermal := fun k j => if (j0 ≤ j ∧ j < j1) ∧ cfg.do_soret then
            cfg.P.thermalDiffCoeffs cfg.press (midT n x j) (midY n x j) k
          else st.dthermal k j }

/-- The uncorrected mixture-averaged flux of species `k` at interval `j`
(lines 542-543): `m_wt[k]*(rho*m_diff[k+m_nsp*j]/wtm) * (X(k,j)-X(k,j+1))/dz`. -/
def mixFluxUncorrected (cfg : Cfg) (st : St) (x : ℕ → ℚ) (k j : ℕ) : ℚ :=
  cfg.wt k * (st.rho j * st.diff (k + cfg.nsp * j) / st.wtm j) *
    ((Xmole cfg st x k j - Xmole cfg st x k (j + 1)) / (cfg.z (j + 1) - cfg.z j))

/-- `StFlow::updateDiffFluxes(x, j0, j1)` (lines 529-579) for a configured
transport model.  Mixture-averaged intervals get the zero-net-flux correction
`m_flux(k,j) += sum * Y(x,k,j)` with `sum = -Σ_k m_flux(k,j)`; the
multicomponent branch uses the dense matrix; an enabled Soret term then
subtracts `m_dthermal(k,m) * gradlogT` on the same intervals. -/
def updateDiffFluxes (cfg : Cfg) (x : ℕ → ℚ) (st : St) (j0 j1 : ℕ) : St :=
  let n := cfg.nsp
  let fluxBase : ℕ → ℕ → ℚ :=
    match cfg.transport_option with
    | .mixav => fun k j =>
        if (j0 ≤ j ∧ j < j1) ∧ k < n then
          let s : ℚ := -(∑ k2 ∈ Finset.range n, mixFluxUncorrected cfg st x k2 j)
          mixFluxUncorrected cfg st x k j + s * compY n x k j
        else st.flux k j
    | .multi => fun k j =>
        if (j0 ≤ j ∧ j < j1) ∧ k < n then
          (∑ m ∈ Finset.range n,
              cfg.wt m * st.multidiff (mindex n k m j) *
                (Xmole cfg st x m (j + 1) - Xmole cfg st x m j)) *
            st.diff (k + j * n) / (cfg.z (j + 1) - cfg.z j)
        else st.flux k j
  let fluxFinal : ℕ → ℕ → ℚ :=
    if cfg.do_soret then
      fun k j =>
        if (j0 ≤ j ∧ j < j1) ∧ k < n then
          let gradlogT := 2 * (compT n x (j + 1) - compT n x j) /
            ((compT n x (j + 1) + compT n x j) * (cfg.z (j + 1) - cfg.z j))
          fluxBase k j - st.dthermal k j * gradlogT
        else fluxBase k j
    else fluxBase
  { st with flux := fluxFinal }

/-- Trivial concrete providers (all queries answer a constant) for closed
witnesses and counterexamples. -/
def trivProviders : Providers where
  density := fun _ _ _ => 1
  meanMolecularWeight := fun _ _ _ => 1
  cp_mass := fun _ _ _ => 1
  viscosity := fun _ _ _ => 1
  thermalConductivity := fun _ _ _ => 1
  mixDiffCoeffs := fun _ _ _ _ => 1
  multiDiffCoeffs := fun _ _ _ _ _ => 0
  thermalDiffCoeffs := fun _ _ _ _ => 0
  netProductionRates := fun _ _ _ _ => 0
  enthalpyRTref := fun _ _ _ _ => 0
  cpRref := fun _ _ _ _ => 0
  rpow := fun _ _ => 0

/-- A concrete single-species, two-point, mixture-averaged configuration. -/
def cfgC1 : Cfg where
  nsp := 1
  points := 2
  press := 1
  wt := fun _ => 1
  z := fun j => if j = 0 then 0 else 1
  transport_option := .mixav
  do_soret := false
  do_radiation := false
  epsilon_left := 0
  epsilon_right := 0
  stefanBoltz := 0
  oneAtm := 101325
  gasConstant := 1
  kRadCO2 := none
  kRadH2O := none
  do_energy := fun _ => false
  fixedtemp := fun _ => 0
  prevSoln := fun _ => 0
  firstPoint := 0
  zfixed := 0
  tfixed := 0
  P := trivProviders

/-- A concrete engine state with unit property caches. -/
def stC1 : St where
  rho := fun _ => 1
  wtm := fun _ => 1
  cp := fun _ => 1
  visc := fun _ => 1
  tcon := fun _ => 1
  diff := fun _ => 1
  multidiff := fun _ => 0
  dthermal := fun _ _ => 0
  flux := fun _ _ => 0
  wdotC := fun _ _ => 0
  qdotRad := fun _ => 0
  dovisc := false

/-- A concrete solution array whose single species has mass fraction 2 at
point 0 and 0 at point 1 (mass fractions do not sum to 1 at point 0). -/
def xC1 : ℕ → ℚ := fun i => if i = 4 then 2 else 0

/-- A concrete solution array whose single species has mass fraction 1 at
point 0 (a normalized composition) and 0 at point 1. -/
def xC1n : ℕ → ℚ := fun i => if i = 4 then 1 else 0

/-- A bounded `while` loop: `iterWhile step cond fuel s` runs `step` while
`cond` holds, up to `fuel` times.  The two loops of `PorousFlow::solid` are
self-terminating through their iteration caps (the caps force the loop
condition false), so a fuel larger than the cap simulates the source's
unbounded `while` exactly; this is proved below
(`radLoop_cond_false`, `solidLoop_cond_false`). -/
def iterWhile {σ : Type} (step : σ → σ) (cond : σ → Bool) : ℕ → σ → σ
  | 0, s => s
  | n + 1, s => if cond s then iterWhile step cond n (step s) else s

namespace PorousFlow

/-- Inputs of `PorousFlow::solid(x, hconv, scond, RK, Omega, srho, sCp, rdt)`
(line 1385): the grid (`m_points`, `z`), the gas temperatures `T(x, i)` read
from the solution array, the per-point convective coefficient, solid
conductivity, extinction coefficient and scattering albedo vectors, and the
scalar solid density, heat capacity and transient rate. -/
structure SolidCfg where
  len : ℕ
  z : ℕ → ℚ
  Tgas : ℕ → ℚ
  hconv : ℕ → ℚ
  scond : ℕ → ℚ
  RK : ℕ → ℚ
  Omega : ℕ → ℚ
  srho : ℚ
  sCp : ℚ
  rdt : ℚ

/-- The local constant `sigma = 5.67e-8` of `PorousFlow::solid`. -/
def sigma : ℚ := 567 / 10 ^ 10

/-- The square of the loop tolerance `0.000001`.  The source compares
`change > 0.000001` where `change` is a Euclidean norm obtained through
`sqrt`; since `sqrt` is strictly monotone on nonnegative reals and commutes
with `max`, the model carries the squared norms and compares against the
squared tolerance, which decides exactly the same comparisons without
needing square roots on `ℚ`. -/
def tolSq : ℚ := 1 / 10 ^ 12

/-- The tridiagonal system built in each outer pass of `PorousFlow::solid`
(lines 1418-1448). -/
structure Tri where
  edia : List ℚ
  fdia : List ℚ
  gdia : List ℚ
  rhs : List ℚ
deriving DecidableEq, Repr

/-- Build the tridiagonal system for the solid temperature field: row 0 is
`(0, 1, -1 | 0)`, row `len-1` is `(-1, 1, 0 | 0)`, and interior rows carry
solid conduction (`edia`/`gdia` and the first two `fdia` terms), convection
to the gas (`-hconv[i]`), the capacitive term (`-srho*sCp*rdt`) and the
right-hand side `-hconv[i]*T(x,i) + dq[i] - srho*sCp*rdt*Twprev[i]`. -/
def buildTridiag (cfg : SolidCfg) (dq Twprev : List ℚ) : Tri where
  edia := (List.range cfg.len).map fun i =>
    if i = 0 then 0
    else if i = cfg.len - 1 then -1
    else 2 * cfg.scond i / ((cfg.z i - cfg.z (i - 1)) * (cfg.z (i + 1) - cfg.z (i - 1)))
  fdia := (List.range cfg.len).map fun i =>
    if i = 0 then 1
    else if i = cfg.len - 1 then 1
    else -(2 * cfg.scond i) / ((cfg.z (i + 1) - cfg.z i) * (cfg.z (i + 1) - cfg.z (i - 1)))
      - 2 * cfg.scond i / ((cfg.z i - cfg.z (i - 1)) * (cfg.z (i + 1) - cfg.z (i - 1)))
      - cfg.hconv i - cfg.srho * cfg.sCp * cfg.rdt
  gdia := (List.range cfg.len).map fun i =>
    if i = 0 then -1
    else if i = cfg.len - 1 then 0
    else 2 * cfg.scond i / ((cfg.z (i + 1) - cfg.z i) * (cfg.z (i + 1) - cfg.z (i - 1)))
  rhs := (List.range cfg.len).map fun i =>
    if i = 0 then 0
    else if i = cfg.len - 1 then 0
    else -(cfg.hconv i) * cfg.Tgas i + dq.getD i 0
      - cfg.srho * cfg.sCp * cfg.rdt * (Twprev.getD i 0)

/-- In-place decomposition of the tridiagonal system (lines 1452-1457):
for `i = 1, ..., len-1`, `edia[i] /= fdia[i-1]` then
`fdia[i] -= edia[i]*gdia[i-1]` (with the updated `edia[i]`). -/
def thomasDecomp (t : Tri) (len : ℕ) : List ℚ × List ℚ :=
  (List.range' 1 (len - 1)).foldl
    (fun (p : List ℚ × List ℚ) i =>
      let e2 := p.1.set i (p.1.getD i 0 / p.2.getD (i - 1) 0)
      (e2, p.2.set i (p.2.getD i 0 - e2.getD i 0 * t.gdia.getD (i - 1) 0)))
    (t.edia, t.fdia)

/-- Forward substitution (lines 1459-1463): for `i = 1, ..., len-1`,
`rhs[i] -= edia[i]*rhs[i-1]` with the decomposed `edia`. -/
def thomasForward (ed r : List ℚ) (len : ℕ) : List ℚ :=
  (List.range' 1 (len - 1)).foldl
    (fun (acc : List ℚ) i => acc.set i (acc.getD i 0 - ed.getD i 0 * acc.getD (i - 1) 0))
    r

/-- Back substitution (lines 1465-1470): `Tw[len-1] = rhs[len-1]/fdia[len-1]`,
then for `i = len-2, ..., 0`, `Tw[i] = (rhs[i] - gdia[i]*Tw[i+1])/fdia[i]`
with the decomposed `fdia` and the original `gdia`. -/
def thomasBack (t : Tri) (fd r2 : List ℚ) (len : ℕ) : List ℚ :=
  let tw0 := (List.replicate len 0).set (len - 1) (r2.getD (len - 1) 0 / fd.getD (len - 1) 0)
  ((List.range (len - 1)).reverse).foldl
    (fun tw i => tw.set i ((r2.getD i 0 - t.gdia.getD i 0 * tw.getD (i + 1) 0) / fd.getD i 0))
    tw0

/-- Thomas solve of the tridiagonal system (lines 1452-1470): decomposition,
forward substitution, back substitution. -/
def thomasSolve (t : Tri) (len : ℕ) : List ℚ :=
  let ef := thomasDecomp t len
  thomasBack t ef.2 (thomasForward ef.1 t.rhs len) len

/-- One outer pass's linear solid-conduction solve. -/
def solveTw (cfg : SolidCfg) (dq Twprev : List ℚ) : List ℚ :=
  thomasSolve (buildTridiag cfg dq Twprev) cfg.len

/-- State of the inner two-flux (S2) radiative-transfer loop: the four
intensity vectors, the squared change norm, the iteration counter and the
stall flag. -/
structure RadSt where
  qplus : List ℚ
  qpnew : List ℚ
  qminus : List ℚ
  qmnew : List ℚ
  change2sq : ℚ
  count : ℕ
  fail : Bool
deriving DecidableEq, Repr

/-- Initialization of the two-flux vectors (lines 1482-1516): with
`temp2 = T(x, 0)`, the left end carries incident forward flux
`sigma*temp2^4`, the right end incident backward flux `sigma*temp2^4`, and
all other entries start at zero.  `change2` starts at 1. -/
def radInit (cfg : SolidCfg) : RadSt :=
  let temp2 := cfg.Tgas 0
  let qp := (List.range cfg.len).map fun i =>
    if i = 0 then sigma * temp2 ^ 4 else 0
  let qm := (List.range cfg.len).map fun i =>
    if i = 0 then 0 else if i = cfg.len - 1 then sigma * temp2 ^ 4 else 0
  ⟨qp, qp, qm, qm, 1, 0, false⟩

/-- One iteration of the S2 method (lines 1520-1556): a forward sweep updating
`qpnew[1..len-1]` in place, a backward sweep updating `qmnew[len-2..0]`, the
two change norms, the copy `qplus := qpnew`, `qminus := qmnew`, and the
iteration cap (`count > 100` forces `change2 = 0` and sets the stall flag). -/
def radStep (cfg : SolidCfg) (Tw : List ℚ) (st : RadSt) : RadSt :=
  let len := cfg.len
  let count2 := st.count + 1
  let qp := (List.range' 1 (len - 1)).foldl
    (fun (q : List ℚ) i =>
      let dz := cfg.z i - cfg.z (i - 1)
      q.set i ((q.getD (i - 1) 0 + cfg.RK i * dz * cfg.Omega i * st.qminus.getD i 0 +
        2 * cfg.RK i * dz * (1 - cfg.Omega i) * sigma * (Tw.getD i 0) ^ 4) /
        (1 + dz * cfg.RK i * (2 - cfg.Omega i))))
    st.qpnew
  let qm := ((List.range (len - 1)).reverse).foldl
    (fun (q : List ℚ) i =>
      let dz := cfg.z (i + 1) - cfg.z i
      q.set i ((q.getD (i + 1) 0 + cfg.RK i * dz * cfg.Omega i * qp.getD i 0 +
        2 * cfg.RK i * dz * (1 - cfg.Omega i) * sigma * (Tw.getD i 0) ^ 4) /
        (1 + dz * cfg.RK i * (2 - cfg.Omega i))))
    st.qmnew
  let norm1 := ((List.range len).map fun i => (qp.getD i 0 - st.qplus.getD i 0) ^ 2).sum
  let norm2 := ((List.range len).map fun i => (qm.getD i 0 - st.qminus.getD i 0) ^ 2).sum
  if count2 > 100 then ⟨qp, qp, qm, qm, 0, count2, true⟩
  else ⟨qp, qp, qm, qm, max norm1 norm2, count2, st.fail⟩

/-- The inner radiative loop `while (change2 > 0.000001)`.  The cap forces
the condition false after at most 101 iterations, so fuel 102 simulates the
unbounded source loop exactly (`radLoop_cond_false` below). -/
def radLoop (cfg : SolidCfg) (Tw : List ℚ) : RadSt :=
  iterWhile (radStep cfg Tw) (fun s => decide (tolSq < s.change2sq)) 102 (radInit cfg)

/-- State of the outer loop of `PorousFlow::solid`: the solid temperature
field, the net radiative-flux field, the squared change norm, the iteration
counter and the non-convergence flag. -/
structure SolidSt where
  Tw : List ℚ
  dq : List ℚ
  change1sq : ℚ
  count1 : ℕ
  fail1 : Bool
deriving DecidableEq, Repr

/-- One pass of the outer loop (lines 1415-1590): build and Thomas-solve the
tridiagonal system from the current `dq` and the entry value `Twprev`, run
the inner two-flux loop, form `dqnew` (frozen to the current `dq` if the
inner loop stalled, else from the two-flux closure), accumulate the squared
change norm, relax `dq := 0.1*dqnew + 0.9*dq`, and apply the outer cap
(`count1 > 400` forces `change1 = 0` and sets the failure flag). -/
def outerStep (cfg : SolidCfg) (Twprev : List ℚ) (st : SolidSt) : SolidSt :=
  let len := cfg.len
  let count2 := st.count1 + 1
  let Tw := solveTw cfg st.dq Twprev
  let rs := radLoop cfg Tw
  let dqnew := if rs.fail then st.dq
    else (List.range len).map fun i =>
      4 * cfg.RK i * (1 - cfg.Omega i) *
        (sigma * (Tw.getD i 0) ^ 4 - 1/2 * rs.qplus.getD i 0 - 1/2 * rs.qminus.getD i 0)
  let norm := ((List.range len).map fun i => (dqnew.getD i 0 - st.dq.getD i 0) ^ 2).sum
  let a : ℚ := 1/10
  let dq2 := (List.range len).map fun i => a * dqnew.getD i 0 + (1 - a) * st.dq.getD i 0
  if count2 > 400 then ⟨Tw, dq2, 0, count2, true⟩
  else ⟨Tw, dq2, norm, count2, st.fail1⟩

/-- Entry state of the outer loop: `Tw` is the member field at entry (read
only through `Twprev` before being overwritten by the first solve), `dq` is
zeroed by the loop at lines 1407-1410, `change1 = 1`, `count1 = 0`. -/
def solidInit (cfg : SolidCfg) (TwIn : List ℚ) : SolidSt :=
  ⟨TwIn, List.replicate cfg.len 0, 1, 0, false⟩

/-- The outer loop `while (change1 > 0.000001)`.  The cap forces the
condition false after at most 401 passes, so fuel 402 simulates the
unbounded source loop exactly (`solidLoop_cond_false` below). -/
def solidLoop (cfg : SolidCfg) (TwIn : List ℚ) : SolidSt :=
  iterWhile (outerStep cfg TwIn) (fun s => decide (tolSq < s.change1sq)) 402
    (solidInit cfg TwIn)

/-- `PorousFlow::solid` (lines 1385-1609): returns the new `(Tw, dq)` member
fields.  `Twprev := Tw` is saved at entry; the incoming `dq` (`dqIn`) is
zeroed before the loop (lines 1407-1410) and therefore never read; on outer
non-convergence (`fail1`) the solid temperature field is reverted to
`Twprev` (lines 1591-1598).  The `writelog` stall/non-convergence messages
and the `refiner().setExtraVar(Tw.data())` hook are not modelled. -/
def solid (cfg : SolidCfg) (TwIn dqIn : List ℚ) : List ℚ × List ℚ :=
  let st := solidLoop cfg TwIn
  if st.fail1 then (TwIn, st.dq) else (st.Tw, st.dq)

/-- Concrete 3-point solid configuration with no radiative extinction
(`RK = 0`), unit convection, steady state: the solve pins the solid field to
the interior equation's value in one pass. -/
def solidCfgC3 : SolidCfg where
  len := 3
  z := StFlow.zIncr
  Tgas := fun _ => 1
  hconv := fun _ => 1
  scond := fun _ => 0
  RK := fun _ => 0
  Omega := fun _ => 0
  srho := 1
  sCp := 1
  rdt := 0

/-- Like `solidCfgC3` but transient (`rdt = 1`), so the capacitive term makes
the result depend on the entry solid temperature field. -/
def solidCfgC3t : SolidCfg where
  len := 3
  z := StFlow.zIncr
  Tgas := fun _ => 1
  hconv := fun _ => 1
  scond := fun _ => 0
  RK := fun _ => 0
  Omega := fun _ => 0
  srho := 1
  sCp := 1
  rdt := 1

/-- Concrete 3-point configuration whose gas temperature differs between the
two ends (`T(x,0) = 2`, interior gas temperature 1): exposes that the solid
end value is not pinned to the adjacent gas temperature. -/
def solidCfgC4 : SolidCfg where
  len := 3
  z := StFlow.zIncr
  Tgas := fun i => if i = 0 then 2 else 1
  hconv := fun _ => 1
  scond := fun _ => 0
  RK := fun _ => 0
  Omega := fun _ => 0
  srho := 0
  sCp := 0
  rdt := 0

/-- Concrete configuration driving the inner two-flux loop to its iteration
cap: albedo 2 (an unvalidated restored parameter) makes the sweeps diverge,
while the solved solid field is identically zero. -/
def solidCfgA : SolidCfg where
  len := 3
  z := StFlow.zIncr
  Tgas := fun i => if i = 0 then 1000 else 0
  hconv := fun _ => 1
  scond := fun _ => 0
  RK := fun _ => 1
  Omega := fun _ => 2
  srho := 0
  sCp := 0
  rdt := 0

/-- Concrete single-point configuration driving the outer loop to its
iteration cap: the two-flux closure yields a large constant `dqnew[0]`, so
the damped update `dq := 0.1*dqnew + 0.9*dq` keeps a change norm above
tolerance for more than 400 passes. -/
def solidCfgB : SolidCfg where
  len := 1
  z := StFlow.zIncr
  Tgas := fun _ => 10 ^ 6
  hconv := fun _ => 1
  scond := fun _ => 0
  RK := fun _ => 1
  Omega := fun _ => 0
  srho := 0
  sCp := 0
  rdt := 0

/-- Concrete entry solid temperature field for the C5 witness. -/
def twB : List ℚ := [7]

/-- The zero vector of length 3 used by witnesses. -/
def twZ : List ℚ := [0, 0, 0]

/-- A concrete outer-loop state for the C5 witness. -/
def stA : SolidSt := ⟨twZ, twZ, 1, 0, false⟩

/-- Left-hand side of row `i` of a tridiagonal system applied to a candidate
solution vector `w`. -/
def rowEval (t : Tri) (w : List ℚ) (i : ℕ) : ℚ :=
  t.edia.getD i 0 * w.getD (i - 1) 0 + t.fdia.getD i 0 * w.getD i 0 +
    t.gdia.getD i 0 * w.getD (i + 1) 0

end PorousFlow

/-!
### The residual engines (`StFlow::eval`, `PorousFlow::eval`)

The two `eval` bodies are modelled as pure functions from
`(jg, x, rsd-in, diag-in, rdt, state)` to `(state, rsd-out, diag-out)`.
Within one call each grid point's rows are written exactly once and never
read back, so the written buffers are modelled as functions of the flat
index; slots outside the evaluated window keep the caller's values.
-/

/-- Wrap-around `size_t` subtraction: `jg - firstPoint()` can wrap when
`jg = firstPoint() - 1` (which passes the domain-of-influence guard). -/
def w64sub (a b : ℕ) : ℕ := (((a : ℤ) - b) % (2 ^ 64 : ℤ)).toNat

/-- The domain-of-influence guard of both `eval` bodies:
`jg != npos && (jg + 1 < firstPoint() || jg > lastPoint() + 1)`. -/
def outOfRange (cfg : Cfg) (jg : Option ℕ) : Bool :=
  match jg with
  | none => false
  | some g => decide (g + 1 < cfg.firstPoint) || decide (cfg.lastPoint + 1 < g)

/-- `jpt = (jg == 0) ? 0 : jg - firstPoint()` (size_t arithmetic). -/
def jptOf (cfg : Cfg) (g : ℕ) : ℕ := if g = 0 then 0 else w64sub g cfg.firstPoint

/-- The residual window `(jmin, jmax)`: the whole grid for a full pass
(`jg = npos`), else `jmin = max(jpt,1)-1`, `jmax = min(jpt+1, points-1)`
(the increment `jpt+1` wraps in size_t). -/
def windowJ (cfg : Cfg) (jg : Option ℕ) : ℕ × ℕ :=
  match jg with
  | none => (0, cfg.points - 1)
  | some g =>
      (max (jptOf cfg g) 1 - 1, min ((jptOf cfg g + 1) % 2 ^ 64) (cfg.points - 1))

/-- The property window `(j0, j1)`: `j0 = max(jmin,1)-1`,
`j1 = min(jmax+1, points-1)`. -/
def windowProp (cfg : Cfg) (jg : Option ℕ) : ℕ × ℕ :=
  let w := windowJ cfg jg
  (max w.1 1 - 1, min (w.2 + 1) (cfg.points - 1))

/-- `if (jg != npos) rdt = 0;`: in Jacobian perturbation mode the transient
rate is forced to zero before any residual is formed. -/
def effRdt : Option ℕ → ℚ → ℚ
  | none, rdt => rdt
  | some _, _ => 0

/-- `rho_u(x, j) = m_rho[j] * u(x, j)` (accessor from the missing header,
named by the continuity comments in the source). -/
def rho_u (st : St) (nsp : ℕ) (x : ℕ → ℚ) (j : ℕ) : ℚ :=
  st.rho j * compU nsp x j

/-- Upwinded radial-velocity derivative `dVdz(x, j)` (accessor from the
missing header: upwind select by the sign of `u(x,j)`, then a one-sided
difference). -/
def dVdz (cfg : Cfg) (x : ℕ → ℚ) (j : ℕ) : ℚ :=
  let jloc := if 0 < compU cfg.nsp x j then j else j + 1
  (compV cfg.nsp x jloc - compV cfg.nsp x (jloc - 1)) / cfg.mdz (jloc - 1)

/-- Upwinded mass-fraction derivative `dYdz(x, k, j)` (missing header). -/
def dYdz (cfg : Cfg) (x : ℕ → ℚ) (k j : ℕ) : ℚ :=
  let jloc := if 0 < compU cfg.nsp x j then j else j + 1
  (compY cfg.nsp x k jloc - compY cfg.nsp x k (jloc - 1)) / cfg.mdz (jloc - 1)

/-- Upwinded temperature derivative `dTdz(x, j)` (missing header). -/
def dTdz (cfg : Cfg) (x : ℕ → ℚ) (j : ℕ) : ℚ :=
  let jloc := if 0 < compU cfg.nsp x j then j else j + 1
  (compT cfg.nsp x jloc - compT cfg.nsp x (jloc - 1)) / cfg.mdz (jloc - 1)

/-- Shear term `shear(x, j)` of the radial-momentum equation (missing
header): central divergence of `mu * dV/dz` over the staggered intervals. -/
def shear (cfg : Cfg) (st : St) (x : ℕ → ℚ) (j : ℕ) : ℚ :=
  2 * (st.visc j * (compV cfg.nsp x (j + 1) - compV cfg.nsp x j) /
        (cfg.z (j + 1) - cfg.z j)
      - st.visc (j - 1) * (compV cfg.nsp x j - compV cfg.nsp x (j - 1)) /
        (cfg.z j - cfg.z (j - 1))) / (cfg.z (j + 1) - cfg.z (j - 1))

/-- Conductive heat-flux divergence `divHeatFlux(x, j)` (missing header; its
shape is recorded by the commented-out porous variant at lines 1212-1214 of
the source). -/
def divHeatFlux (cfg : Cfg) (st : St) (x : ℕ → ℚ) (j : ℕ) : ℚ :=
  let c1 := st.tcon (j - 1) * (compT cfg.nsp x j - compT cfg.nsp x (j - 1))
  let c2 := st.tcon j * (compT cfg.nsp x (j + 1) - compT cfg.nsp x j)
  (-2 * (c2 / (cfg.z (j + 1) - cfg.z j) - c1 / (cfg.z j - cfg.z (j - 1))) /
    (cfg.z (j + 1) - cfg.z (j - 1)))

/-- H2O Planck-coefficient polynomial weights `c_H2O` (lines 294-295). -/
def cH2O : ℕ → ℚ :=
  fun n => [-(23093:ℚ)/100000, -11239/10000, 94153/10000, -29988/10000,
    51382/100000, -18684/10^9].getD n 0

/-- CO2 Planck-coefficient polynomial weights `c_CO2` (lines 296-297). -/
def cCO2 : ℕ → ℚ :=
  fun n => [(18741:ℚ)/1000, -12131/100, 2735/10, -19405/100, 5631/100,
    -58169/10000].getD n 0

/-- The optically-thin radiative heat loss at point `j` (lines 288-335):
Planck-mean absorption from the H2O and CO2 polynomials (when the mechanism
has those species), referenced against the two boundary black-body terms. -/
def radiationQ (cfg : Cfg) (st : St) (x : ℕ → ℚ) (j : ℕ) : ℚ :=
  let kPref := 1 * cfg.oneAtm
  let boundaryL := cfg.epsilon_left * cfg.stefanBoltz * (compT cfg.nsp x 0) ^ 4
  let boundaryR := cfg.epsilon_right * cfg.stefanBoltz *
    (compT cfg.nsp x (cfg.points - 1)) ^ 4
  let kH2O := match cfg.kRadH2O with
    | none => 0
    | some kH => cfg.press * Xmole cfg st x kH j *
        ((∑ n ∈ Finset.range 6, cH2O n * (1000 / compT cfg.nsp x j) ^ n) / kPref)
  let kCO2 := match cfg.kRadCO2 with
    | none => 0
    | some kC => cfg.press * Xmole cfg st x kC j *
        ((∑ n ∈ Finset.range 6, cCO2 n * (1000 / compT cfg.nsp x j) ^ n) / kPref)
  2 * (kH2O + kCO2) *
    (2 * cfg.stefanBoltz * (compT cfg.nsp x j) ^ 4 - boundaryL - boundaryR)

/-- `getWdot(x, j)` cache update: both `eval` bodies call `getWdot` exactly at
the interior points of the evaluated window, writing column `j` of `m_wdot`
with the provider's net production rates at point `j`'s state. -/
def updateWdot (cfg : Cfg) (x : ℕ → ℚ) (st : St) (jmin jmax : ℕ) : St :=
  { st with wdotC := fun k j =>
      if max jmin 1 ≤ j ∧ j ≤ min jmax (cfg.points - 2) then
        cfg.P.netProductionRates cfg.press (compT cfg.nsp x j) (Yfun cfg.nsp x j) k
      else st.wdotC k j }

/-- The flow-configuration strategies that override `evalContinuity` and
`evalRightBoundary` for the base engine. -/
inductive FlowKind where
  | axiStagn : FlowKind
  | freeFlame : FlowKind
deriving DecidableEq, Repr

/-- Left-boundary residual rows (lines 343-369, identical in
`PorousFlow::eval` lines 1091-1121): continuity anchored rightward, pinned
`V`, `T`, `-rho_u`, zero-flux species rows, and the species-normalization row
overwriting species 0. -/
def leftRow (cfg : Cfg) (st : St) (x : ℕ → ℚ) (n : ℕ) : ℚ :=
  if n = 0 then
    -(rho_u st cfg.nsp x 1 - rho_u st cfg.nsp x 0) / cfg.mdz 0
      - (st.rho 1 * compV cfg.nsp x 1 + st.rho 0 * compV cfg.nsp x 0)
  else if n = 1 then compV cfg.nsp x 0
  else if n = 2 then compT cfg.nsp x 0
  else if n = 3 then -(rho_u st cfg.nsp x 0)
  else if n = 4 then 1 - (∑ k ∈ Finset.range cfg.nsp, compY cfg.nsp x k 0)
  else -(st.flux (n - 4) 0 + rho_u st cfg.nsp x 0 * compY cfg.nsp x (n - 4) 0)

/-- Right-boundary residual rows (`AxiStagnFlow::evalRightBoundary`,
lines 850-869, and `FreeFlame::evalRightBoundary`, lines 1610-1632: the
free flame uses zero-gradient `u` and `T` rows instead of pinned ones). -/
def rightRow (k : FlowKind) (cfg : Cfg) (st : St) (x : ℕ → ℚ) (n : ℕ) : ℚ :=
  let j := cfg.points - 1
  if n = 0 then
    match k with
    | .axiStagn => rho_u st cfg.nsp x j
    | .freeFlame => rho_u st cfg.nsp x j - rho_u st cfg.nsp x (j - 1)
  else if n = 1 then compV cfg.nsp x j
  else if n = 2 then
    match k with
    | .axiStagn => compT cfg.nsp x j
    | .freeFlame => compT cfg.nsp x j - compT cfg.nsp x (j - 1)
  else if n = 3 then compL cfg.nsp x j - compL cfg.nsp x (j - 1)
  else if n = 4 then 1 - (∑ k2 ∈ Finset.range cfg.nsp, compY cfg.nsp x k2 j)
  else st.flux (n - 4) (j - 1) + rho_u st cfg.nsp x j * compY cfg.nsp x (n - 4) j

/-- Interior continuity residual: `AxiStagnFlow::evalContinuity`
(lines 871-889, forward difference anchored at the right) or
`FreeFlame::evalContinuity` (lines 1634-1660, stencil switching at the
anchor coordinate `m_zfixed`). -/
def continuityRsd (k : FlowKind) (cfg : Cfg) (st : St) (x : ℕ → ℚ) (j : ℕ) : ℚ :=
  match k with
  | .axiStagn =>
      -(rho_u st cfg.nsp x (j + 1) - rho_u st cfg.nsp x j) / cfg.mdz j
        - (st.rho (j + 1) * compV cfg.nsp x (j + 1) + st.rho j * compV cfg.nsp x j)
  | .freeFlame =>
      if cfg.zfixed < cfg.z j then
        -(rho_u st cfg.nsp x j - rho_u st cfg.nsp x (j - 1)) / cfg.mdz (j - 1)
          - (st.rho (j - 1) * compV cfg.nsp x (j - 1) + st.rho j * compV cfg.nsp x j)
      else if cfg.z j = cfg.zfixed then
        if cfg.do_energy j then compT cfg.nsp x j - cfg.tfixed
        else rho_u st cfg.nsp x j - st.rho 0 * (3 / 10)
      else
        -(rho_u st cfg.nsp x (j + 1) - rho_u st cfg.nsp x j) / cfg.mdz j
          - (st.rho (j + 1) * compV cfg.nsp x (j + 1) + st.rho j * compV cfg.nsp x j)

/-- Radial-momentum residual at an interior point (lines 381-385, identical
in the porous engine at lines 1142-1146). -/
def momentumRsd (cfg : Cfg) (st : St) (x : ℕ → ℚ) (rdt : ℚ) (j : ℕ) : ℚ :=
  (shear cfg st x j - compL cfg.nsp x j - rho_u st cfg.nsp x j * dVdz cfg x j
      - st.rho j * compV cfg.nsp x j * compV cfg.nsp x j) / st.rho j
    - rdt * (compV cfg.nsp x j - compV cfg.nsp cfg.prevSoln j)

/-- Species residual at an interior point of the base engine
(lines 393-404). -/
def speciesRsd (cfg : Cfg) (st : St) (x : ℕ → ℚ) (rdt : ℚ) (k j : ℕ) : ℚ :=
  let convec := rho_u st cfg.nsp x j * dYdz cfg x k j
  let diffus := 2 * (st.flux k j - st.flux k (j - 1)) /
    (cfg.z (j + 1) - cfg.z (j - 1))
  (cfg.wt k * st.wdotC k j - convec - diffus) / st.rho j
    - rdt * (compY cfg.nsp x k j - compY cfg.nsp cfg.prevSoln k j)

/-- Energy residual at an interior point with the energy equation enabled
(base engine, lines 414-437): advection, heat-flux divergence, chemical heat
release, flux-weighted heat-capacity-gradient term, and the radiative sink. -/
def energyRsd (cfg : Cfg) (st : St) (x : ℕ → ℚ) (rdt : ℚ) (j : ℕ) : ℚ :=
  let hRT := cfg.P.enthalpyRTref cfg.press (compT cfg.nsp x j) (Yfun cfg.nsp x j)
  let cpR := cfg.P.cpRref cfg.press (compT cfg.nsp x j) (Yfun cfg.nsp x j)
  let sum := (∑ k ∈ Finset.range cfg.nsp, st.wdotC k j * hRT k) *
    cfg.gasConstant * compT cfg.nsp x j
  let dtdzj := dTdz cfg x j
  let sum2 := (∑ k ∈ Finset.range cfg.nsp,
      (1/2 * (st.flux k (j - 1) + st.flux k j)) * cpR k / cfg.wt k) *
    cfg.gasConstant * dtdzj
  (-(st.cp j) * rho_u st cfg.nsp x j * dtdzj - divHeatFlux cfg st x j
      - sum - sum2) / (st.rho j * st.cp j)
    - rdt * (compT cfg.nsp x j - compT cfg.nsp cfg.prevSoln j)
    - st.qdotRad j / (st.rho j * st.cp j)

/-- Interior residual rows of the base engine (lines 372-446). -/
def interiorRsd (k : FlowKind) (cfg : Cfg) (st : St) (x : ℕ → ℚ) (rdt : ℚ)
    (n j : ℕ) : ℚ :=
  if n = 0 then continuityRsd k cfg st x j
  else if n = 1 then momentumRsd cfg st x rdt j
  else if n = 2 then
    (if cfg.do_energy j then energyRsd cfg st x rdt j
     else compT cfg.nsp x j - cfg.fixedtemp j)
  else if n = 3 then compL cfg.nsp x j - compL cfg.nsp x (j - 1)
  else speciesRsd cfg st x rdt (n - 4) j

/-- Interior differential/algebraic flags, identical in both engines:
continuity and the pressure-eigenvalue row are algebraic, radial momentum
and species rows differential, the temperature row differential exactly when
the point's energy flag is set. -/
def interiorDiag (cfg : Cfg) (n j : ℕ) : ℤ :=
  if n = 0 then 0
  else if n = 1 then 1
  else if n = 2 then (if cfg.do_energy j then 1 else 0)
  else if n = 3 then 0
  else 1

/-- `StFlow::eval(jg, x, rsd, diag, rdt)` (lines 220-448), with the
continuity/right-boundary strategy chosen by `k`:  guard on the domain of
influence; force `rdt = 0` in Jacobian mode; update the thermodynamic cache,
the transport cache (full passes only) and the diffusive fluxes on the
property window; recompute the radiative sink on `[jmin, jmax)` if enabled;
fill the production-rate cache at the window's interior points; and write the
residual and flag rows for every point of the window, leaving all other slots
of the caller-owned buffers unchanged. -/
def stEval (k : FlowKind) (cfg : Cfg) (jg : Option ℕ) (x : ℕ → ℚ)
    (rsdIn : ℕ → ℚ) (diagIn : ℕ → ℤ) (rdt0 : ℚ) (st : St) :
    St × (ℕ → ℚ) × (ℕ → ℤ) :=
  if outOfRange cfg jg then (st, rsdIn, diagIn)
  else
    let rdt := effRdt jg rdt0
    let w := windowJ cfg jg
    let p := windowProp cfg jg
    let st1 := updateThermo cfg x st p.1 p.2
    let st2 := match jg with
      | none => updateTransport cfg x st1 p.1 p.2
      | some _ => st1
    let st3 := updateDiffFluxes cfg x st2 p.1 p.2
    let st4 := { st3 with qdotRad := fun j =>
            if cfg.do_radiation ∧ (w.1 ≤ j ∧ j < w.2) then radiationQ cfg st3 x j
            else st3.qdotRad j }
    let st5 := updateWdot cfg x st4 w.1 w.2
    let rsd : ℕ → ℚ := fun i =>
      let j := i / nv cfg.nsp
      let n := i % nv cfg.nsp
      if w.1 ≤ j ∧ j ≤ w.2 then
        if j = 0 then leftRow cfg st5 x n
        else if j = cfg.points - 1 then rightRow k cfg st5 x n
        else interiorRsd k cfg st5 x rdt n j
      else rsdIn i
    let diag : ℕ → ℤ := fun i =>
      let j := i / nv cfg.nsp
      let n := i % nv cfg.nsp
      if w.1 ≤ j ∧ j ≤ w.2 then
        if j = 0 then diagIn i
        else if j = cfg.points - 1 then
          (if n = 3 ∨ n = 4 then 0 else diagIn i)
        else interiorDiag cfg n j
      else diagIn i
    (st5, rsd, diag)

/-- Porous-variant configuration: the base engine configuration plus the
endpoint solid parameters interpolated inside the transition band
(`PorousFlow` members restored by `PorousFlow::restore`). -/
structure PCfg where
  base : Cfg
  pore1 : ℚ
  pore2 : ℚ
  diam1 : ℚ
  diam2 : ℚ
  Omega1 : ℚ
  Omega2 : ℚ
  srho : ℚ
  sCp : ℚ
  zmid : ℚ
  dzmid : ℚ

/-- Porous engine mutable state: the base caches plus the porous member
vectors (`Tw`, `dq`, `pore`, `diam`, `scond`, `hconv`) and the container's
`dosolid` trigger flag. -/
structure PSt where
  stf : St
  Tw : List ℚ
  dq : List ℚ
  pore : List ℚ
  diam : List ℚ
  scond : List ℚ
  hconv : List ℚ
  dosolid : Bool

/-- Local porosity profile (lines 1014-1031): endpoint values outside the
transition band `[zmid - dzmid, zmid + dzmid]`, linear interpolation
inside. -/
def poreAt (pc : PCfg) (i : ℕ) : ℚ :=
  if pc.base.z i < pc.zmid - pc.dzmid then pc.pore1
  else if pc.zmid + pc.dzmid < pc.base.z i then pc.pore2
  else (pc.pore2 - pc.pore1) / (2 * pc.dzmid) *
    (pc.base.z i - (pc.zmid - pc.dzmid)) + pc.pore1

/-- Local pore-diameter profile (lines 1014-1031). -/
def diamAt (pc : PCfg) (i : ℕ) : ℚ :=
  if pc.base.z i < pc.zmid - pc.dzmid then pc.diam1
  else if pc.zmid + pc.dzmid < pc.base.z i then pc.diam2
  else (pc.diam2 - pc.diam1) / (2 * pc.dzmid) *
    (pc.base.z i - (pc.zmid - pc.dzmid)) + pc.diam1

/-- Extinction coefficient `RK[i] = 3*(1-pore[i])/diam[i]` (line 1032). -/
def RKAt (pc : PCfg) (i : ℕ) : ℚ := 3 * (1 - poreAt pc i) / diamAt pc i

/-- Nusselt coefficient `Cmult[i] = -400*diam[i] + 0.687` (line 1033). -/
def CmultAt (pc : PCfg) (i : ℕ) : ℚ := -400 * diamAt pc i + 687/1000

/-- Nusselt exponent `mpow[i] = 443.7*diam[i] + 0.361` (line 1034). -/
def mpowAt (pc : PCfg) (i : ℕ) : ℚ := 4437/10 * diamAt pc i + 361/1000

/-- Solid conductivity `scond[i] = 0.188 - 17.5*diam[i]` (line 1035). -/
def scondAt (pc : PCfg) (i : ℕ) : ℚ := 188/1000 - 175/10 * diamAt pc i

/-- Scattering albedo `Omega[i]` (lines 1039-1049): `Omega1` left of `zmid`,
else `Omega2`. -/
def OmegaAt (pc : PCfg) (i : ℕ) : ℚ :=
  if pc.base.z i < pc.zmid then pc.Omega1 else pc.Omega2

/-- Convective coefficient written on the evaluated window (lines 1062-1071):
`hconv[j] = tcon[j] * Cmult[j] * pow(Re, mpow[j]) / diam[j]^2` with
`Re = rho_u(x,j)*pore[j]*diam[j]/visc[j]`; entries outside the window keep
their previous values (the member vector is only resized). -/
def hconvUpd (pc : PCfg) (st : St) (x : ℕ → ℚ) (hconvOld : List ℚ)
    (jmin jmax : ℕ) : List ℚ :=
  (List.range pc.base.points).map fun j =>
    if jmin ≤ j ∧ j ≤ jmax then
      let Re := rho_u st pc.base.nsp x j * poreAt pc j * diamAt pc j / st.visc j
      st.tcon j * (CmultAt pc j * pc.base.P.rpow Re (mpowAt pc j)) /
        (diamAt pc j * diamAt pc j)
    else hconvOld.getD j 0

/-- The `SolidCfg` handed to `PorousFlow::solid` by `PorousFlow::eval`
(line 1078): the grid, the gas temperatures from the solution array, the
freshly computed `hconv`/`scond`/`RK`/`Omega` vectors and the scalar solid
parameters, with the (already zeroed in Jacobian mode) transient rate. -/
def solidCfgOf (pc : PCfg) (x : ℕ → ℚ) (hconvV : List ℚ) (rdt : ℚ) :
    PorousFlow.SolidCfg where
  len := pc.base.points
  z := pc.base.z
  Tgas := fun i => compT pc.base.nsp x i
  hconv := fun i => hconvV.getD i 0
  scond := fun i => scondAt pc i
  RK := fun i => RKAt pc i
  Omega := fun i => OmegaAt pc i
  srho := pc.srho
  sCp := pc.sCp
  rdt := rdt

/-- Porous species residual (lines 1155-1167): porosity enters the
convective, diffusive and source terms and the density normalization. -/
def porousSpeciesRsd (pc : PCfg) (st : St) (x : ℕ → ℚ) (rdt : ℚ)
    (k j : ℕ) : ℚ :=
  let cfg := pc.base
  let convec := rho_u st cfg.nsp x j * dYdz cfg x k j * poreAt pc j
  let diffus := 2 * (st.flux k j * poreAt pc j - st.flux k (j - 1) * poreAt pc (j - 1)) /
    (cfg.z (j + 1) - cfg.z (j - 1))
  (cfg.wt k * (st.wdotC k j * poreAt pc j) - convec - diffus) /
      (st.rho j * poreAt pc j)
    - rdt * (compY cfg.nsp x k j - compY cfg.nsp cfg.prevSoln k j)

/-- Porous energy residual with the energy equation enabled
(lines 1178-1205): the base terms plus the convective exchange with the
solid field `-(hconv[j]*(T(x,j)-Tw[j]))/pore[j]`; no radiation term. -/
def porousEnergyRsd (pc : PCfg) (st : St) (x : ℕ → ℚ) (TwL hconvV : List ℚ)
    (rdt : ℚ) (j : ℕ) : ℚ :=
  let cfg := pc.base
  let hRT := cfg.P.enthalpyRTref cfg.press (compT cfg.nsp x j) (Yfun cfg.nsp x j)
  let cpR := cfg.P.cpRref cfg.press (compT cfg.nsp x j) (Yfun cfg.nsp x j)
  let sum := (∑ k ∈ Finset.range cfg.nsp, st.wdotC k j * hRT k) *
    cfg.gasConstant * compT cfg.nsp x j
  let dtdzj := dTdz cfg x j
  let sum2 := (∑ k ∈ Finset.range cfg.nsp,
      (1/2 * (st.flux k (j - 1) + st.flux k j)) * cpR k / cfg.wt k) *
    cfg.gasConstant * dtdzj
  (-(st.cp j) * rho_u st cfg.nsp x j * dtdzj - divHeatFlux cfg st x j
      - sum - sum2
      - (hconvV.getD j 0 * (compT cfg.nsp x j - TwL.getD j 0)) / poreAt pc j) /
      (st.rho j * st.cp j)
    - rdt * (compT cfg.nsp x j - compT cfg.nsp cfg.prevSoln j)

/-- Interior residual rows of the porous engine (lines 1127-1233). -/
def porousInteriorRsd (pc : PCfg) (st : St) (x : ℕ → ℚ) (TwL hconvV : List ℚ)
    (rdt : ℚ) (n j : ℕ) : ℚ :=
  let cfg := pc.base
  if n = 0 then
    -(rho_u st cfg.nsp x (j + 1) * poreAt pc (j + 1)
        - rho_u st cfg.nsp x j * poreAt pc j) / cfg.mdz j
      - (st.rho (j + 1) * compV cfg.nsp x (j + 1) + st.rho j * compV cfg.nsp x j)
  else if n = 1 then momentumRsd cfg st x rdt j
  else if n = 2 then
    (if cfg.do_energy j then porousEnergyRsd pc st x TwL hconvV rdt j
     else compT cfg.nsp x j - cfg.fixedtemp j)
  else if n = 3 then compL cfg.nsp x j - compL cfg.nsp x (j - 1)
  else porousSpeciesRsd pc st x rdt (n - 4) j

/-- `PorousFlow::eval(jg, x, rg, diagg, rdt)` (lines 939-1235): the same
guard, Jacobian `rdt` zeroing, property-window updates and buffer-writing
discipline as the base engine (no radiation block); sets `m_dovisc = 1`;
recomputes the porosity/diameter/conductivity/albedo profiles at every
point and the convective coefficients on the window; invokes the solid
subsolver when the container's `dosolid` trigger is set (then clears the
trigger); uses `AxiStagnFlow`'s right boundary rows and porosity-modified
interior rows. -/
def porousEval (pc : PCfg) (jg : Option ℕ) (x : ℕ → ℚ) (rsdIn : ℕ → ℚ)
    (diagIn : ℕ → ℤ) (rdt0 : ℚ) (pst : PSt) : PSt × (ℕ → ℚ) × (ℕ → ℤ) :=
  let cfg := pc.base
  if outOfRange cfg jg then (pst, rsdIn, diagIn)
  else
    let rdt := effRdt jg rdt0
    let w := windowJ cfg jg
    let p := windowProp cfg jg
    let st0 := { pst.stf with dovisc := true }
    let st1 := updateThermo cfg x st0 p.1 p.2
    let st2 := match jg with
      | none => updateTransport cfg x st1 p.1 p.2
      | some _ => st1
    let st3 := updateDiffFluxes cfg x st2 p.1 p.2
    let poreV := (List.range cfg.points).map fun i => poreAt pc i
    let diamV := (List.range cfg.points).map fun i => diamAt pc i
    let scondV := (List.range cfg.points).map fun i => scondAt pc i
    let hconvV := hconvUpd pc st3 x pst.hconv w.1 w.2
    let TwDq := if pst.dosolid then
        PorousFlow.solid (solidCfgOf pc x hconvV rdt) pst.Tw pst.dq
      else (pst.Tw, pst.dq)
    let dosolid2 := if pst.dosolid then false else pst.dosolid
    let st5 := updateWdot cfg x st3 w.1 w.2
    let rsd : ℕ → ℚ := fun i =>
      let j := i / nv cfg.nsp
      let n := i % nv cfg.nsp
      if w.1 ≤ j ∧ j ≤ w.2 then
        if j = 0 then leftRow cfg st5 x n
        else if j = cfg.points - 1 then rightRow .axiStagn cfg st5 x n
        else porousInteriorRsd pc st5 x TwDq.1 hconvV rdt n j
      else rsdIn i
    let diag : ℕ → ℤ := fun i =>
      let j := i / nv cfg.nsp
      let n := i % nv cfg.nsp
      if w.1 ≤ j ∧ j ≤ w.2 then
        if j = 0 then diagIn i
        else if j = cfg.points - 1 then
          (if n = 3 ∨ n = 4 then 0 else diagIn i)
        else interiorDiag cfg n j
      else diagIn i
    ({ stf := st5, Tw := TwDq.1, dq := TwDq.2, pore := poreV, diam := diamV,
       scond := scondV, hconv := hconvV, dosolid := dosolid2 }, rsd, diag)

/-- A concrete 3-point, one-species base configuration for the eval
witnesses (energy disabled everywhere). -/
def cfgE : Cfg where
  nsp := 1
  points := 3
  press := 1
  wt := fun _ => 1
  z := StFlow.zIncr
  transport_option := .mixav
  do_soret := false
  do_radiation := false
  epsilon_left := 0
  epsilon_right := 0
  stefanBoltz := 567/10^10
  oneAtm := 101325
  gasConstant := 8314
  kRadCO2 := none
  kRadH2O := none
  do_energy := fun _ => false
  fixedtemp := fun _ => 5
  prevSoln := fun _ => 0
  firstPoint := 0
  zfixed := 0
  tfixed := 0
  P := trivProviders

/-- A concrete porous configuration over `cfgE` for the eval witnesses. -/
def pcE : PCfg where
  base := cfgE
  pore1 := 1
  pore2 := 1
  diam1 := 1
  diam2 := 1
  Omega1 := 0
  Omega2 := 0
  srho := 1
  sCp := 1
  zmid := 1
  dzmid := 1/2

/-- A concrete porous engine state for the eval witnesses. -/
def pstE : PSt where
  stf := stC1
  Tw := [0, 0, 0]
  dq := [0, 0, 0]
  pore := []
  diam := []
  scond := []
  hconv := []
  dosolid := false

namespace FreeFlame

/-- Modelled from the spec: the base library's `Undef` sentinel marking an
unset anchor (`m_tfixed != Undef` guards the whole relocation in
`FreeFlame::_finalize`).  Only its comparison with a genuinely set anchor
temperature is observable, so the concrete value is immaterial under the
claim's set-anchor hypothesis. -/
def Undef : ℚ := -999999

/-- The crossing search of `FreeFlame::_finalize` (lines 1675-1683): the
first `j < pts - 1` with `(T(x,j) - m_tfixed) * (T(x,j+1) - m_tfixed) <= 0`. -/
def findCross (pts : ℕ) (Tx : ℕ → ℚ) (tfix : ℚ) : Option ℕ :=
  (List.range (pts - 1)).find? fun j =>
    decide ((Tx j - tfix) * (Tx (j + 1) - tfix) ≤ 0)

/-- The anchor update of `FreeFlame::_finalize` (lines 1662-1685), returning
the new `(m_zfixed, m_tfixed)`.  The parent call `StFlow::_finalize` does not
touch the anchor members and is not modelled.  If the anchor is unset, or
some grid point coordinate already equals `m_zfixed`, the anchor is left
unchanged; otherwise the first interval whose endpoint temperatures bracket
`m_tfixed` donates its right endpoint, and if no interval does, the anchor is
again unchanged. -/
def finalizeAnchor (pts : ℕ) (z Tx : ℕ → ℚ) (zfix tfix : ℚ) : ℚ × ℚ :=
  if tfix = Undef then (zfix, tfix)
  else if (List.range pts).any (fun j => decide (z j = zfix)) then (zfix, tfix)
  else
    match findCross pts Tx tfix with
    | some j => (z (j + 1), Tx (j + 1))
    | none => (zfix, tfix)

/-- A concrete temperature profile crossing the value `10` exactly once,
between points 1 and 2, for the C8 witness. -/
def TxC8 : ℕ → ℚ := fun j => if j = 0 then 0 else if j = 1 then 5 else 20

end FreeFlame

namespace StFlow

/-- The restorable content of the XML domain node read by `StFlow::restore`
(lines 621-784): the pressure, the `grid_data` float arrays in document order
(title and values), and the optional `energy_enabled` / `species_enabled`
arrays.  The `string` children, the log output and the `refine_criteria`
block (which configures the external refiner) are not modelled. -/
structure RestoreDom where
  pressure : ℚ
  arrays : List (String × List ℚ)
  energy_enabled : Option (List ℚ)
  species_enabled : Option (List ℚ)

/-- The member state threaded through the dataset loop of `StFlow::restore`:
the solution array, the fixed-temperature profile installed by the `T`
branch, and the two equation-enable flag vectors. -/
structure RestoreData where
  soln : ℕ → ℚ
  zfix : List ℚ
  tfix : List ℚ
  do_energy : List Bool
  do_species : List Bool

/-- The point count after the grid phase: the length of the last `z` dataset
(each `z` dataset calls `setupGrid`, so the last one wins, line 648). -/
def gridLenOf (arrays : List (String × List ℚ)) : ℕ :=
  match ((arrays.filter (fun p => p.1 = "z")).map Prod.snd).getLast? with
  | some v => v.length
  | none => 0

/-- `true` iff an `Except` computation threw. -/
def exceptIsError {α : Type} : Except String α → Bool
  | .error _ => true
  | .ok _ => false

/-- `true` iff an `Except` computation succeeded. -/
def exceptOk {α : Type} : Except String α → Bool
  | .error _ => false
  | .ok _ => true

/-- The grid phase of `StFlow::restore` (lines 637-659): the first loop calls
`setupGrid` once per `z` dataset in document order, each call throwing on a
non-monotonic grid, and afterwards the no-grid error is thrown if no `z`
dataset was seen.  Every `setupGrid` failure carries the same message, so the
loop is observably: the invalid-grid error if any `z` dataset is
non-monotonic (a bad dataset throws before the no-grid check can run), the
no-grid error if there is no `z` dataset, and otherwise the point count,
coordinates and spacings of the last `z` dataset. -/
def gridPhase (opt : TransportOption) (nsp : ℕ) (prev : ResizeSizes)
    (arrays : List (String × List ℚ)) : Except String (ℕ × List ℚ × List ℚ) :=
  match ((arrays.filter (fun p => p.1 = "z")).map Prod.snd).getLast? with
  | none => .error "domain contains no grid points."
  | some vlast =>
      if ((arrays.filter (fun p => p.1 = "z")).map Prod.snd).all
          (fun v => exceptOk (setupGrid opt nsp prev v.length (fun i => v.getD i 0))) then
        match setupGrid opt nsp prev vlast.length (fun i => vlast.getD i 0) with
        | .ok r => .ok (gridLenOf arrays, r.mz, r.mdz)
        | .error e => .error e
      else .error invalidGridMsg

/-- Writes one dataset into solution component `comp`:
`soln[index(comp, j)] = vals[j]` for `j < np` (lines 672-674 and peers).
Since `index(comp, j) = m_nv * j + comp`, the touched flat indices are
exactly those with `i % m_nv = comp` and `i / m_nv < np`. -/
def writeRow (nsp : ℕ) (soln : ℕ → ℚ) (comp : ℕ) (vals : List ℚ) (np : ℕ) :
    ℕ → ℚ :=
  fun i =>
    if i % nv nsp = comp ∧ i / nv nsp < np then vals.getD (i / nv nsp) 0
    else soln i

/-- One iteration of the dataset loop of `StFlow::restore` (lines 661-726),
dispatching on the dataset title.  `u`, `V`, `T` and `L` throw on a size
mismatch; `z` was already consumed by the grid phase; a known species name
writes its row only when the size matches, a mismatch being silently skipped
(line 715); unknown titles are ignored.  The `T` branch also installs the
imported profile as the fixed-temperature profile via `setFixedTempProfile`
(from the missing header; modelled from the spec: it stores the normalized
coordinates and the temperatures), with `zz[jj] = (grid(jj) - zmin())
/ (zmax() - zmin())`. -/
def dataStep (nsp : ℕ) (spIdx : String → Option ℕ) (np : ℕ) (mz : List ℚ)
    (d : RestoreData) (p : String × List ℚ) : Except String RestoreData :=
  let nm := p.1
  let vals := p.2
  if nm = "u" then
    if vals.length = np then .ok { d with soln := writeRow nsp d.soln 0 vals np }
    else .error "axial velocity array size error"
  else if nm = "z" then .ok d
  else if nm = "V" then
    if vals.length = np then .ok { d with soln := writeRow nsp d.soln 1 vals np }
    else .error "radial velocity array size error"
  else if nm = "T" then
    if vals.length = np then
      .ok { d with
        soln := writeRow nsp d.soln 2 vals np
        zfix := (List.range np).map fun jj =>
          (mz.getD jj 0 - mz.getD 0 0) / (mz.getD (np - 1) 0 - mz.getD 0 0)
        tfix := vals }
    else .error "temperature array size error"
  else if nm = "L" then
    if vals.length = np then .ok { d with soln := writeRow nsp d.soln 3 vals np }
    else .error "lambda arary size error"
  else
    match spIdx nm with
    | some k =>
        if vals.length = np then
          .ok { d with soln := writeRow nsp d.soln (k + 4) vals np }
        else .ok d
    | none => .ok d

/-- The dataset loop of `StFlow::restore`, folded over the datasets in
document order; the first throwing dataset aborts the loop. -/
def dataPhase (nsp : ℕ) (spIdx : String → Option ℕ) (np : ℕ) (mz : List ℚ)
    (arrays : List (String × List ℚ)) (d : RestoreData) :
    Except String RestoreData :=
  match arrays with
  | [] => .ok d
  | a :: rest =>
      match dataStep nsp spIdx np mz d a with
      | .error e => .error e
      | .ok d2 => dataPhase nsp spIdx np mz rest d2

/-- The `energy_enabled` phase (lines 748-758): with the array present, a
matching length overwrites the per-point energy flags (a nonzero entry means
enabled), a nonempty array of any other length throws, and an empty one is
ignored. -/
def energyPhase (np : ℕ) (energy : Option (List ℚ)) (d : RestoreData) :
    Except String RestoreData :=
  match energy with
  | none => .ok d
  | some l =>
      if l.length = np then .ok { d with do_energy := l.map fun v => decide (v ≠ 0) }
      else if l = [] then .ok d
      else .error "energy_enabled has wrong length"

/-- The `species_enabled` phase (lines 760-776): it never throws.  A length
matching the species count overwrites the per-species flags; a nonempty array
of any other length logs a warning and re-enables every species equation
(`m_do_species.assign(m_nsp, true)`, line 774); an empty one is ignored. -/
def speciesPhase (nsp : ℕ) (species : Option (List ℚ)) (d : RestoreData) :
    RestoreData :=
  match species with
  | none => d
  | some l =>
      if l.length = nsp then { d with do_species := l.map fun v => decide (v ≠ 0) }
      else if l = [] then d
      else { d with do_species := List.replicate nsp true }

/-- The member state of the flow domain after a successful restore. -/
structure RestoreSt where
  press : ℚ
  np : ℕ
  mz : List ℚ
  mdz : List ℚ
  soln : ℕ → ℚ
  zfix : List ℚ
  tfix : List ℚ
  do_energy : List Bool
  do_species : List Bool

/-- `StFlow::restore(dom, soln, loglevel)` (lines 621-784): sets the
pressure, runs the grid phase, the dataset loop over the same datasets, and
the `energy_enabled` / `species_enabled` phases.  `Domain1D::restore`
(outside src/) restores base-class bookkeeping and is not modelled; the
`refine_criteria` block configures the external refiner and is not modelled;
log output is dropped. -/
def restore (opt : TransportOption) (nsp : ℕ) (prev : ResizeSizes)
    (spIdx : String → Option ℕ) (solnIn : ℕ → ℚ) (doE doS : List Bool)
    (dom : RestoreDom) : Except String RestoreSt :=
  match gridPhase opt nsp prev dom.arrays with
  | .error e => .error e
  | .ok g =>
      match dataPhase nsp spIdx g.1 g.2.1 dom.arrays ⟨solnIn, [], [], doE, doS⟩ with
      | .error e => .error e
      | .ok d1 =>
          match energyPhase g.1 dom.energy_enabled d1 with
          | .error e => .error e
          | .ok d2 =>
              let d3 := speciesPhase nsp dom.species_enabled d2
              .ok ⟨dom.pressure, g.1, g.2.1, g.2.2, d3.soln, d3.zfix, d3.tfix,
                   d3.do_energy, d3.do_species⟩

/-- Projection of a restore result onto the per-species enable flags. -/
def speciesFlagsOf (r : Except String RestoreSt) : Option (List Bool) :=
  match r with
  | .ok st => some st.do_species
  | .error _ => none

end StFlow

namespace PorousFlow

/-- The scalar and per-point members of `PorousFlow` restored from the
`Solid` node. -/
structure SolidMembers where
  pore1 : ℚ
  pore2 : ℚ
  diam1 : ℚ
  diam2 : ℚ
  scond1 : ℚ
  scond2 : ℚ
  Omega1 : ℚ
  Omega2 : ℚ
  srho : ℚ
  sCp : ℚ
  zmid : ℚ
  dzmid : ℚ
  Tw : List ℚ
  dq : List ℚ
  pore : List ℚ
  diam : List ℚ
  scond : List ℚ
  hconv : List ℚ

/-- The `Solid` XML node content read by `PorousFlow::restore`
(lines 1241-1327): twelve scalars and six float arrays. -/
structure SolidDom where
  pore1 : ℚ
  pore2 : ℚ
  diam1 : ℚ
  diam2 : ℚ
  scond1 : ℚ
  scond2 : ℚ
  Omega1 : ℚ
  Omega2 : ℚ
  srho : ℚ
  sCp : ℚ
  zmid : ℚ
  dzmid : ℚ
  Tsolid : List ℚ
  Radiation : List ℚ
  Porosity : List ℚ
  Diameter : List ℚ
  SolidConductivity : List ℚ
  Hconv : List ℚ

/-- One restored per-point solid array (e.g. `Tsolid`, lines 1258-1268): the
member is first resized to the point count (truncating or zero-padding the
old values), then a dataset of matching length overwrites it, a nonempty
dataset of any other length throws, and an empty one leaves the resized
member. -/
def solidField (np : ℕ) (old vals : List ℚ) (msg : String) :
    Except String (List ℚ) :=
  if vals.length = np then .ok vals
  else if vals = [] then .ok (old.take np ++ List.replicate (np - old.length) 0)
  else .error msg

/-- `PorousFlow::restore` (lines 1237-1328): the base-class restore, then,
when a `Solid` node is present, the twelve scalars and the six per-point
arrays in source order (`Tsolid`, `Radiation`, `Porosity`, `Diameter`,
`SolidConductivity`, `Hconv`), each array throwing on a nonempty length
mismatch against the point count. -/
def restore (opt : StFlow.TransportOption) (nsp : ℕ)
    (prev : StFlow.ResizeSizes) (spIdx : String → Option ℕ) (solnIn : ℕ → ℚ)
    (doE doS : List Bool) (old : SolidMembers) (dom : StFlow.RestoreDom)
    (sdom : Option SolidDom) :
    Except String (StFlow.RestoreSt × SolidMembers) :=
  match StFlow.restore opt nsp prev spIdx solnIn doE doS dom with
  | .error e => .error e
  | .ok st =>
      match sdom with
      | none => .ok (st, old)
      | some sd =>
          match solidField st.np old.Tw sd.Tsolid "Tw length mismatch" with
          | .error e => .error e
          | .ok tw =>
          match solidField st.np old.dq sd.Radiation "dq length mismatch" with
          | .error e => .error e
          | .ok dq2 =>
          match solidField st.np old.pore sd.Porosity "Porosity length mismatch" with
          | .error e => .error e
          | .ok pore2 =>
          match solidField st.np old.diam sd.Diameter "diam length mismatch" with
          | .error e => .error e
          | .ok diam2 =>
          match solidField st.np old.scond sd.SolidConductivity "scond length mismatch" with
          | .error e => .error e
          | .ok scond2 =>
          match solidField st.np old.hconv sd.Hconv "hconv length mismatch" with
          | .error e => .error e
          | .ok hconv2 =>
              .ok (st,
                { pore1 := sd.pore1, pore2 := sd.pore2, diam1 := sd.diam1,
                  diam2 := sd.diam2, scond1 := sd.scond1, scond2 := sd.scond2,
                  Omega1 := sd.Omega1, Omega2 := sd.Omega2, srho := sd.srho,
                  sCp := sd.sCp, zmid := sd.zmid, dzmid := sd.dzmid,
                  Tw := tw, dq := dq2, pore := pore2, diam := diam2,
                  scond := scond2, hconv := hconv2 })

/-- A species-index map with no known species, for the C9 examples. -/
def spIdxC9 : String → Option ℕ := fun _ => none

/-- A domain whose `species_enabled` array is nonempty with the wrong length
for one species: the source re-enables all species instead of throwing. -/
def domC9 : StFlow.RestoreDom :=
  { pressure := 1
    arrays := [("z", [0, 1])]
    energy_enabled := none
    species_enabled := some [1, 1, 1] }

/-- A domain whose `energy_enabled` array is nonempty with the wrong length. -/
def domC9e : StFlow.RestoreDom :=
  { pressure := 1
    arrays := [("z", [0, 1])]
    energy_enabled := some [1, 1, 1]
    species_enabled := none }

/-- A plain two-point domain for the porous C9 witness. -/
def domC9p : StFlow.RestoreDom :=
  { pressure := 1
    arrays := [("z", [0, 1])]
    energy_enabled := none
    species_enabled := none }

/-- Old porous members for the C9 witness. -/
def oldC9 : SolidMembers :=
  ⟨0, 0, 0, 0, 0, 0, 0, 0, 0, 0, 0, 0, [], [], [], [], [], []⟩

/-- A `Solid` node whose `Tsolid` array is nonempty with the wrong length. -/
def sdomC9 : SolidDom :=
  ⟨1, 1, 1, 1, 1, 1, 1, 1, 1, 1, 1, 1, [1, 2, 3], [], [], [], [], []⟩

/-- A `Solid` node whose first five arrays match the two-point grid but whose
`Hconv` array is nonempty with the wrong length. -/
def sdomC9h : SolidDom :=
  ⟨1, 1, 1, 1, 1, 1, 1, 1, 1, 1, 1, 1, [0, 0], [0, 0], [0, 0], [0, 0], [0, 0],
   [1, 2, 3]⟩

/-- A domain whose `u` dataset is nonempty with the wrong length for its
two-point grid. -/
def domC9u : StFlow.RestoreDom :=
  { pressure := 1
    arrays := [("z", [0, 1]), ("u", [1, 2, 3])]
    energy_enabled := none
    species_enabled := none }

end PorousFlow

end PMB

/-!
## Theorems

Everything below is a lemma or a claim theorem about the definitions above.
-/

namespace PMB

namespace StFlow

theorem gridLoop_ok_of_mono (z : ℕ → ℚ) :
    ∀ m : ℕ, (∀ j, 1 ≤ j → j ≤ m → z (j - 1) < z j) →
      ∃ p : List ℚ × List ℚ, gridLoop z m = .ok p ∧
        p.1.length = m + 1 ∧ p.2.length = m := by
  intro m
  induction m with
  | zero =>
      intro _
      exact ⟨([z 0], []), rfl, rfl, rfl⟩
  | succ m ih =>
      intro h
      obtain ⟨p, hp, hl1, hl2⟩ := ih (fun j h1 h2 => h j h1 (Nat.le_succ_of_le h2))
      have hmono : z m < z (m + 1) := by
        have := h (m + 1) (Nat.le_add_left 1 m) le_rfl
        simpa using this
      refine ⟨(p.1 ++ [z (m + 1)], p.2 ++ [z (m + 1) - z m]), ?_, ?_, ?_⟩
      · simp only [gridLoop, hp]
        rw [if_neg (not_le.mpr hmono)]
      · simp [hl1]
      · simp [hl2]

theorem gridLoop_error_msg (z : ℕ → ℚ) :
    ∀ m e, gridLoop z m = .error e → e = invalidGridMsg := by
  intro m
  induction m with
  | zero =>
      intro e h
      simp [gridLoop] at h
  | succ m ih =>
      intro e h
      cases hok : gridLoop z m with
      | error e2 =>
          simp only [gridLoop, hok] at h
          injection h with h
          exact h ▸ ih e2 hok
      | ok p =>
          simp only [gridLoop, hok] at h
          by_cases hc : z (m + 1) ≤ z m
          · rw [if_pos hc] at h
            injection h with h
            exact h.symm
          · rw [if_neg hc] at h
            cases h

theorem gridLoop_error_of_bad (z : ℕ → ℚ) :
    ∀ m : ℕ, (∃ j, 1 ≤ j ∧ j ≤ m ∧ z j ≤ z (j - 1)) →
      gridLoop z m = .error invalidGridMsg := by
  intro m
  induction m with
  | zero =>
      rintro ⟨j, h1, h2, _⟩
      omega
  | succ m ih =>
      rintro ⟨j, h1, h2, hbad⟩
      by_cases hj : j ≤ m
      · have := ih ⟨j, h1, hj, hbad⟩
        simp only [gridLoop, this]
      · have hjm : j = m + 1 := by omega
        subst hjm
        cases hok : gridLoop z m with
        | error e =>
            simp only [gridLoop, hok]
            rw [gridLoop_error_msg z m e hok]
        | ok p =>
            simp only [gridLoop, hok]
            have hbad2 : z (m + 1) ≤ z m := by simpa using hbad
            rw [if_pos hbad2]

/-- C2: for every strictly increasing coordinate array (with at least one
point, since the source writes `m_z[0]` unconditionally), `setupGrid`
succeeds and afterwards every per-point array is sized to the new point
count, the per-interval arrays to `nsp * n`, and the interval-spacing array
to the point count minus one; for any input with `z[j] <= z[j-1]` at some
index `j >= 1`, `setupGrid` fails by throwing the invalid-grid error. -/
theorem setupGrid_spec (opt : TransportOption) (nsp : ℕ) (prev : ResizeSizes)
    (n : ℕ) (z : ℕ → ℚ) :
    (1 ≤ n → (∀ j, 1 ≤ j → j < n → z (j - 1) < z j) →
      ∃ r : GridResult, setupGrid opt nsp prev n z = .ok r ∧
        r.sizes.rho = n ∧ r.sizes.wtm = n ∧ r.sizes.cp = n ∧
        r.sizes.visc = n ∧ r.sizes.tcon = n ∧ r.sizes.do_energy = n ∧
        r.sizes.qdotRadiation = n ∧ r.sizes.fixedtemp = n ∧ r.sizes.z = n ∧
        r.sizes.dz = n - 1 ∧ r.sizes.diff = nsp * n ∧
        r.sizes.flux = nsp * n ∧ r.sizes.wdot = nsp * n ∧
        r.mz.length = n ∧ r.mdz.length = n - 1) ∧
    ((∃ j, 1 ≤ j ∧ j < n ∧ z j ≤ z (j - 1)) →
      setupGrid opt nsp prev n z = .error invalidGridMsg) := by
  constructor
  · intro hn hmono
    obtain ⟨p, hp, hl1, hl2⟩ := gridLoop_ok_of_mono z (n - 1)
      (fun j h1 h2 => hmono j h1 (by omega))
    refine ⟨⟨resize opt nsp n prev, p.1, p.2⟩, ?_, ?_⟩
    · simp only [setupGrid, hp, Except.map]
    · refine ⟨rfl, rfl, rfl, rfl, rfl, rfl, rfl, rfl, rfl, rfl, rfl, rfl, rfl,
        ?_, ?_⟩
      · simpa [hl1] using by omega
      · exact hl2
  · rintro ⟨j, h1, h2, hbad⟩
    have := gridLoop_error_of_bad z (n - 1) ⟨j, h1, by omega, hbad⟩
    simp only [setupGrid, this, Except.map]

/-- Witness for C2: `setupGrid` at the concrete increasing grid `zIncr`
succeeds with correctly sized arrays and fails with the invalid-grid error
at the concrete non-monotonic grid `zFlat`. -/
theorem setupGrid_spec_witness :
    (∃ r : GridResult, setupGrid .mixav 2 prevSizes 3 zIncr = .ok r ∧
        r.sizes.rho = 3 ∧ r.sizes.wtm = 3 ∧ r.sizes.cp = 3 ∧
        r.sizes.visc = 3 ∧ r.sizes.tcon = 3 ∧ r.sizes.do_energy = 3 ∧
        r.sizes.qdotRadiation = 3 ∧ r.sizes.fixedtemp = 3 ∧ r.sizes.z = 3 ∧
        r.sizes.dz = 2 ∧ r.sizes.diff = 6 ∧ r.sizes.flux = 6 ∧
        r.sizes.wdot = 6 ∧ r.mz.length = 3 ∧ r.mdz.length = 2) ∧
    setupGrid .mixav 2 prevSizes 3 zFlat = .error invalidGridMsg := by
  constructor
  · exact (setupGrid_spec .mixav 2 prevSizes 3 zIncr).1 (by decide)
      (by intro j h1 h2; interval_cases j <;> simp [zIncr])
  · exact (setupGrid_spec .mixav 2 prevSizes 3 zFlat).2
      ⟨1, le_rfl, by decide, by simp [zFlat]⟩

end StFlow

end PMB

namespace PMB

/-- C1 (counterexample): at a concrete mixture-averaged configuration whose
species mass fractions at the interval's left point sum to 2 (not 1), the
corrected per-interval species diffusive mass fluxes do not sum to zero, so
the sum is not zero for arbitrary solution arrays. -/
theorem updateDiffFluxes_sum_zero_cex :
    ¬ (∑ k ∈ Finset.range cfgC1.nsp,
        (updateDiffFluxes cfgC1 xC1 stC1 0 1).flux k 0) = 0 := by
  with_unfolding_all decide

/-- C1 (amended): under the mixture-averaged transport model with Soret
disabled, for every interval `j` in the updated window, if the species mass
fractions at the interval's left point sum to one (the normalization the
engine enforces through the first species residual row), then after
`updateDiffFluxes` applies its zero-net-flux correction the per-interval
species diffusive mass fluxes sum to zero over all species. -/
theorem updateDiffFluxes_mixav_sum_zero (cfg : Cfg) (st : St) (x : ℕ → ℚ)
    (j0 j1 j : ℕ)
    (hopt : cfg.transport_option = .mixav) (hsoret : cfg.do_soret = false)
    (h0 : j0 ≤ j) (h1 : j < j1)
    (hY : ∑ k ∈ Finset.range cfg.nsp, compY cfg.nsp x k j = 1) :
    ∑ k ∈ Finset.range cfg.nsp,
        (updateDiffFluxes cfg x st j0 j1).flux k j = 0 := by
  simp only [updateDiffFluxes, hopt, hsoret, Bool.false_eq_true, if_false]
  rw [Finset.sum_congr rfl
    (fun k hk => if_pos ⟨⟨h0, h1⟩, Finset.mem_range.mp hk⟩)]
  rw [Finset.sum_add_distrib, ← Finset.mul_sum, hY, mul_one]
  ring

/-- Witness for C1 (amended): at a concrete configuration with a normalized
composition at the interval's left point, the corrected fluxes sum to zero. -/
theorem updateDiffFluxes_mixav_sum_zero_witness :
    (∑ k ∈ Finset.range cfgC1.nsp, compY cfgC1.nsp xC1n k 0 = 1) ∧
    ∑ k ∈ Finset.range cfgC1.nsp,
        (updateDiffFluxes cfgC1 xC1n stC1 0 1).flux k 0 = 0 :=
  ⟨by with_unfolding_all decide,
   updateDiffFluxes_mixav_sum_zero cfgC1 stC1 xC1n 0 1 0 rfl rfl le_rfl
     (by decide) (by with_unfolding_all decide)⟩

end PMB

namespace PMB

theorem getD_range_map (f : ℕ → ℚ) {n i : ℕ} (h : i < n) :
    ((List.range n).map f).getD i 0 = f i := by
  rw [List.getD_eq_getElem?_getD, List.getElem?_map, List.getElem?_range h,
    Option.map_some']
  rfl

theorem map_range_getD_eq_self (l : List ℚ) (n : ℕ) (h : l.length = n) :
    (List.range n).map (fun i => l.getD i 0) = l := by
  apply List.ext_getElem?
  intro i
  rw [List.getElem?_map]
  by_cases hi : i < n
  · rw [List.getElem?_range hi, Option.map_some',
      List.getElem?_eq_getElem (show i < l.length by omega)]
    rw [List.getD_eq_getElem?_getD, List.getElem?_eq_getElem (show i < l.length by omega)]
    rfl
  · rw [List.getElem?_eq_none (by simpa using by omega : (List.range n).length ≤ i),
      List.getElem?_eq_none (show l.length ≤ i by omega)]
    rfl

theorem getD_set_ne (l : List ℚ) (i j : ℕ) (a : ℚ) (h : i ≠ j) :
    (l.set i a).getD j 0 = l.getD j 0 := by
  rw [List.getD_eq_getElem?_getD, List.getElem?_set_ne h, List.getD_eq_getElem?_getD]

theorem getD_set_self (l : List ℚ) (i : ℕ) (a : ℚ) (h : i < l.length) :
    (l.set i a).getD i 0 = a := by
  rw [List.getD_eq_getElem?_getD, List.getElem?_set_eq h]
  rfl

theorem foldl_inv {β γ : Type} (step : β → ℕ → β) (proj : β → γ) (l : List ℕ)
    (h : ∀ b i, i ∈ l → proj (step b i) = proj b) :
    ∀ init : β, proj (l.foldl step init) = proj init := by
  induction l with
  | nil => intro init; rfl
  | cons a l ih =>
      intro init
      rw [List.foldl_cons, ih (fun b i hi => h b i (List.mem_cons_of_mem a hi))]
      exact h init a (List.mem_cons_self a l)

theorem iterWhile_exits {σ : Type} (step : σ → σ) (cond : σ → Bool)
    (J : σ → Prop) (m : σ → ℕ)
    (hstep : ∀ s, J s → cond s = true → J (step s) ∧ m (step s) < m s) :
    ∀ (fuel : ℕ) (s : σ), J s → m s ≤ fuel →
      cond (iterWhile step cond fuel s) = false := by
  intro fuel
  induction fuel with
  | zero =>
      intro s hs hm0
      cases hc : cond s with
      | false => simpa [iterWhile] using hc
      | true => exact absurd (hstep s hs hc).2 (by omega)
  | succ n ih =>
      intro s hs hfuel
      cases hc : cond s with
      | false => simpa [iterWhile, hc] using hc
      | true =>
          simp only [iterWhile, hc, if_true]
          exact ih (step s) (hstep s hs hc).1
            (by have := (hstep s hs hc).2; omega)

namespace PorousFlow

theorem tolSq_pos : (0 : ℚ) < tolSq := by norm_num [tolSq]

theorem radStep_count (cfg : SolidCfg) (Tw : List ℚ) (s : RadSt) :
    (radStep cfg Tw s).count = s.count + 1 := by
  simp only [radStep]
  split <;> rfl

theorem radStep_cap (cfg : SolidCfg) (Tw : List ℚ) (s : RadSt)
    (h : 100 < s.count + 1) : (radStep cfg Tw s).change2sq = 0 := by
  simp only [radStep]
  rw [if_pos h]

/-- The inner two-flux loop really reaches its exit condition within the
fuel supplied by `radLoop`: the iteration cap forces the change norm to zero
at the 101st iteration, so fuel 102 simulates the source's unbounded
`while (change2 > 0.000001)` exactly. -/
theorem radLoop_cond_false (cfg : SolidCfg) (Tw : List ℚ) :
    ¬ tolSq < (radLoop cfg Tw).change2sq := by
  have h := iterWhile_exits (radStep cfg Tw)
    (fun s => decide (tolSq < s.change2sq))
    (fun s => s.count ≤ 101 ∧ (s.count = 101 → s.change2sq = 0))
    (fun s => 102 - s.count)
    (by
      intro s hs hc
      have hlt : tolSq < s.change2sq := of_decide_eq_true hc
      have hcount : s.count ≤ 100 := by
        by_contra hgt
        have h101 : s.count = 101 := by omega
        rw [hs.2 h101] at hlt
        exact absurd hlt (by linarith [tolSq_pos])
      refine ⟨⟨?_, ?_⟩, ?_⟩
      · rw [radStep_count]; omega
      · intro h101
        rw [radStep_count] at h101
        exact radStep_cap cfg Tw s (by omega)
      · show 102 - (radStep cfg Tw s).count < 102 - s.count
        rw [radStep_count]; omega)
    102 (radInit cfg) ⟨by norm_num [radInit], by intro h; simp [radInit] at h⟩
    (by norm_num [radInit])
  exact of_decide_eq_false h

theorem outerStep_count (cfg : SolidCfg) (Twprev : List ℚ) (s : SolidSt) :
    (outerStep cfg Twprev s).count1 = s.count1 + 1 := by
  simp only [outerStep]
  split <;> rfl

theorem outerStep_cap (cfg : SolidCfg) (Twprev : List ℚ) (s : SolidSt)
    (h : 400 < s.count1 + 1) : (outerStep cfg Twprev s).change1sq = 0 := by
  simp only [outerStep]
  rw [if_pos h]

/-- The outer loop really reaches its exit condition within the fuel supplied
by `solidLoop`: the iteration cap forces the change norm to zero at the 401st
pass, so fuel 402 simulates the source's unbounded
`while (change1 > 0.000001)` exactly. -/
theorem solidLoop_cond_false (cfg : SolidCfg) (TwIn : List ℚ) :
    ¬ tolSq < (solidLoop cfg TwIn).change1sq := by
  have h := iterWhile_exits (outerStep cfg TwIn)
    (fun s => decide (tolSq < s.change1sq))
    (fun s => s.count1 ≤ 401 ∧ (s.count1 = 401 → s.change1sq = 0))
    (fun s => 402 - s.count1)
    (by
      intro s hs hc
      have hlt : tolSq < s.change1sq := of_decide_eq_true hc
      have hcount : s.count1 ≤ 400 := by
        by_contra hgt
        have h401 : s.count1 = 401 := by omega
        rw [hs.2 h401] at hlt
        exact absurd hlt (by linarith [tolSq_pos])
      refine ⟨⟨?_, ?_⟩, ?_⟩
      · rw [outerStep_count]; omega
      · intro h401
        rw [outerStep_count] at h401
        exact outerStep_cap cfg TwIn s (by omega)
      · show 402 - (outerStep cfg TwIn s).count1 < 402 - s.count1
        rw [outerStep_count]; omega)
    402 (solidInit cfg TwIn) ⟨by norm_num [solidInit], by intro h; simp [solidInit] at h⟩
    (by norm_num [solidInit])
  exact of_decide_eq_false h

end PorousFlow

end PMB

namespace PMB

namespace PorousFlow

theorem foldl_set_getD (g : List ℚ → ℕ → ℚ) (l : List ℕ) (j : ℕ)
    (hl : ∀ i ∈ l, i ≠ j) :
    ∀ init : List ℚ,
      (l.foldl (fun acc i => acc.set i (g acc i)) init).getD j 0 =
        init.getD j 0 := by
  induction l with
  | nil => intro init; rfl
  | cons a l ih =>
      intro init
      rw [List.foldl_cons, ih (fun i hi => hl i (List.mem_cons_of_mem a hi))]
      exact getD_set_ne _ a j _ (hl a (List.mem_cons_self a l))

theorem foldl_set_length (g : List ℚ → ℕ → ℚ) (l : List ℕ) :
    ∀ init : List ℚ,
      (l.foldl (fun acc i => acc.set i (g acc i)) init).length = init.length := by
  induction l with
  | nil => intro init; rfl
  | cons a l ih =>
      intro init
      rw [List.foldl_cons, ih]
      exact List.length_set init a _

theorem thomasDecomp_snd_getD_zero (t : Tri) (len : ℕ) :
    (thomasDecomp t len).2.getD 0 0 = t.fdia.getD 0 0 := by
  have key : ∀ (l : List ℕ), (∀ i ∈ l, i ≠ 0) →
      ∀ init : List ℚ × List ℚ,
        ((l.foldl (fun p i =>
            let e2 := p.1.set i (p.1.getD i 0 / p.2.getD (i - 1) 0)
            (e2, p.2.set i (p.2.getD i 0 - e2.getD i 0 * t.gdia.getD (i - 1) 0)))
          init).2).getD 0 0 = init.2.getD 0 0 := by
    intro l
    induction l with
    | nil => intro _ init; rfl
    | cons a l ih =>
        intro hl init
        rw [List.foldl_cons, ih (fun i hi => hl i (List.mem_cons_of_mem a hi))]
        exact getD_set_ne _ a 0 _ (hl a (List.mem_cons_self a l))
  exact key (List.range' 1 (len - 1))
    (fun i hi => by have := (List.mem_range'_1.mp hi).1; omega)
    (t.edia, t.fdia)

theorem thomasForward_getD_zero (ed r : List ℚ) (len : ℕ) :
    (thomasForward ed r len).getD 0 0 = r.getD 0 0 := by
  exact foldl_set_getD _ (List.range' 1 (len - 1)) 0
    (fun i hi => by have := (List.mem_range'_1.mp hi).1; omega) r

theorem thomasBack_getD_zero (t : Tri) (fd r2 : List ℚ) (len : ℕ)
    (hlen : 2 ≤ len) :
    (thomasBack t fd r2 len).getD 0 0 =
      (r2.getD 0 0 - t.gdia.getD 0 0 * (thomasBack t fd r2 len).getD 1 0) /
        fd.getD 0 0 := by
  obtain ⟨m, hm⟩ : ∃ m, len - 1 = m + 1 := ⟨len - 2, by omega⟩
  simp only [thomasBack, hm, List.range_succ_eq_map, List.reverse_cons,
    List.foldl_append, List.foldl_cons, List.foldl_nil]
  set tw0 := (List.replicate len (0:ℚ)).set (m + 1) (r2.getD (m + 1) 0 / fd.getD (m + 1) 0) with htw0
  set M := ((List.map Nat.succ (List.range m)).reverse).foldl
    (fun tw i => tw.set i ((r2.getD i 0 - t.gdia.getD i 0 * tw.getD (i + 1) 0) / fd.getD i 0))
    tw0 with hM
  have hMlen : M.length = len := by
    rw [hM, foldl_set_length]
    rw [htw0, List.length_set, List.length_replicate]
  rw [getD_set_self M 0 _ (by omega), getD_set_ne M 0 1 _ (by omega)]

theorem thomasSolve_zero_gradient (t : Tri) (len : ℕ) (hlen : 2 ≤ len)
    (hf : t.fdia.getD 0 0 = 1) (hg : t.gdia.getD 0 0 = -1)
    (hr : t.rhs.getD 0 0 = 0) :
    (thomasSolve t len).getD 0 0 = (thomasSolve t len).getD 1 0 := by
  simp only [thomasSolve]
  rw [thomasBack_getD_zero t _ _ len hlen, thomasForward_getD_zero,
    thomasDecomp_snd_getD_zero, hf, hg, hr]
  ring

end PorousFlow

end PMB

namespace PMB

namespace PorousFlow

/-- C3 (counterexample): at a concrete porous configuration, invoking the
solid subsolver with net radiative-flux field `[5, 5, 5]` returns exactly the
same result as invoking it with `[0, 0, 0]` — the previous `dq` does not seed
the solve (the source zeroes `dq` at lines 1407-1410 before iterating) — and
the result differs from the solve actually seeded with the previous `dq`
(`solveTw` applied to the incoming values), so the claim that each invocation
seeds its iterative solve from the previous value of the net radiative-flux
field is false. -/
theorem solid_dq_not_seeded_cex :
    solid solidCfgC3 [1, 1, 1] [5, 5, 5] = solid solidCfgC3 [1, 1, 1] [0, 0, 0] ∧
    solveTw solidCfgC3 [5, 5, 5] [1, 1, 1] ≠ (solid solidCfgC3 [1, 1, 1] [5, 5, 5]).1 := by
  refine ⟨rfl, ?_⟩
  with_unfolding_all decide

/-- C3 (amended): across successive residual evaluations of the porous
variant, the solid temperature field is state carried over — its previous
value enters the next solve (through the capacitive right-hand-side term and
as the non-convergence fallback), as the concrete transient configuration
shows — but the net radiative-flux field is not: it is reset to zero at the
start of every invocation of the solid subsolver, so the result is
independent of its carried value. -/
theorem solid_state_carry (cfg : SolidCfg) (TwIn dqIn dqIn2 : List ℚ) :
    solid cfg TwIn dqIn = solid cfg TwIn dqIn2 ∧
    (solid solidCfgC3t [1, 1, 1] [0, 0, 0]).1 ≠ (solid solidCfgC3t [3, 3, 3] [0, 0, 0]).1 := by
  refine ⟨rfl, ?_⟩
  with_unfolding_all decide

/-- C4 (counterexample): at a concrete porous configuration whose gas
temperature at the left end is 2 while the interior gas temperature is 1, the
solid subsolver returns a solid end temperature equal to its neighbouring
solid value (1), not to the adjacent gas temperature (2): the end conditions
do not pin the solid field to the adjacent gas temperatures. -/
theorem solid_end_not_pinned_to_gas_cex :
    (solid solidCfgC4 [0, 0, 0] [0, 0, 0]).1.getD 0 0 ≠ solidCfgC4.Tgas 0 ∧
    (solid solidCfgC4 [0, 0, 0] [0, 0, 0]).1.getD 0 0 =
      (solid solidCfgC4 [0, 0, 0] [0, 0, 0]).1.getD 1 0 := by
  constructor
  · with_unfolding_all decide
  · with_unfolding_all rfl

/-- C4 (amended): in every pass of the porous solid subsolver's outer loop,
the tridiagonal system solved for the solid temperature field imposes
zero-gradient end conditions — row 0 reads `Tw[0] - Tw[1] = 0` and row
`len-1` reads `Tw[len-1] - Tw[len-2] = 0`, so each end is pinned to the
adjacent solid value, not to the adjacent gas temperature — while interior
rows balance conduction (the `scond` stencil terms), convection to the gas
(`-hconv[i]` against `-hconv[i]*T(x,i)`), and a capacitive term scaled by
the transient rate (`-srho*sCp*rdt` against `-srho*sCp*rdt*Twprev[i]`);
the direct-elimination solve satisfies the left zero-gradient condition
exactly. -/
theorem solid_tridiag_system (cfg : SolidCfg) (dq Twprev : List ℚ)
    (hlen : 2 ≤ cfg.len) :
    (∀ w : List ℚ, rowEval (buildTridiag cfg dq Twprev) w 0 =
        w.getD 0 0 - w.getD 1 0) ∧
    (buildTridiag cfg dq Twprev).rhs.getD 0 0 = 0 ∧
    (∀ w : List ℚ, rowEval (buildTridiag cfg dq Twprev) w (cfg.len - 1) =
        w.getD (cfg.len - 1) 0 - w.getD (cfg.len - 2) 0) ∧
    (buildTridiag cfg dq Twprev).rhs.getD (cfg.len - 1) 0 = 0 ∧
    (∀ i, 0 < i → i < cfg.len - 1 →
      (buildTridiag cfg dq Twprev).edia.getD i 0 =
        2 * cfg.scond i / ((cfg.z i - cfg.z (i - 1)) * (cfg.z (i + 1) - cfg.z (i - 1))) ∧
      (buildTridiag cfg dq Twprev).gdia.getD i 0 =
        2 * cfg.scond i / ((cfg.z (i + 1) - cfg.z i) * (cfg.z (i + 1) - cfg.z (i - 1))) ∧
      (buildTridiag cfg dq Twprev).fdia.getD i 0 =
        -(2 * cfg.scond i) / ((cfg.z (i + 1) - cfg.z i) * (cfg.z (i + 1) - cfg.z (i - 1)))
          - 2 * cfg.scond i / ((cfg.z i - cfg.z (i - 1)) * (cfg.z (i + 1) - cfg.z (i - 1)))
          - cfg.hconv i - cfg.srho * cfg.sCp * cfg.rdt ∧
      (buildTridiag cfg dq Twprev).rhs.getD i 0 =
        -(cfg.hconv i) * cfg.Tgas i + dq.getD i 0
          - cfg.srho * cfg.sCp * cfg.rdt * (Twprev.getD i 0)) ∧
    (solveTw cfg dq Twprev).getD 0 0 = (solveTw cfg dq Twprev).getD 1 0 := by
  have h0len : 0 < cfg.len := by omega
  have hlast : cfg.len - 1 < cfg.len := by omega
  have hlast0 : cfg.len - 1 ≠ 0 := by omega
  have he0 : (buildTridiag cfg dq Twprev).edia.getD 0 0 = 0 := by
    simp only [buildTridiag]; rw [getD_range_map _ h0len]; simp
  have hf0 : (buildTridiag cfg dq Twprev).fdia.getD 0 0 = 1 := by
    simp only [buildTridiag]; rw [getD_range_map _ h0len]; simp
  have hg0 : (buildTridiag cfg dq Twprev).gdia.getD 0 0 = -1 := by
    simp only [buildTridiag]; rw [getD_range_map _ h0len]; simp
  have hr0 : (buildTridiag cfg dq Twprev).rhs.getD 0 0 = 0 := by
    simp only [buildTridiag]; rw [getD_range_map _ h0len]; simp
  have heL : (buildTridiag cfg dq Twprev).edia.getD (cfg.len - 1) 0 = -1 := by
    simp only [buildTridiag]; rw [getD_range_map _ hlast]
    rw [if_neg hlast0, if_pos rfl]
  have hfL : (buildTridiag cfg dq Twprev).fdia.getD (cfg.len - 1) 0 = 1 := by
    simp only [buildTridiag]; rw [getD_range_map _ hlast]
    rw [if_neg hlast0, if_pos rfl]
  have hgL : (buildTridiag cfg dq Twprev).gdia.getD (cfg.len - 1) 0 = 0 := by
    simp only [buildTridiag]; rw [getD_range_map _ hlast]
    rw [if_neg hlast0, if_pos rfl]
  have hrL : (buildTridiag cfg dq Twprev).rhs.getD (cfg.len - 1) 0 = 0 := by
    simp only [buildTridiag]; rw [getD_range_map _ hlast]
    rw [if_neg hlast0, if_pos rfl]
  refine ⟨?_, hr0, ?_, hrL, ?_, ?_⟩
  · intro w
    rw [rowEval, he0, hf0, hg0]
    ring
  · intro w
    rw [rowEval, heL, hfL, hgL]
    have : cfg.len - 1 - 1 = cfg.len - 2 := by omega
    rw [this]
    ring
  · intro i hi1 hi2
    have hi : i < cfg.len := by omega
    have hne0 : ¬ i = 0 := by omega
    have hneL : ¬ i = cfg.len - 1 := by omega
    refine ⟨?_, ?_, ?_, ?_⟩ <;>
      · simp only [buildTridiag]; rw [getD_range_map _ hi]
        rw [if_neg hne0, if_neg hneL]
  · exact thomasSolve_zero_gradient _ cfg.len hlen hf0 hg0 hr0

/-- Witness for C4 (amended): the tridiagonal characterization applied at a
concrete configuration; the solved field satisfies the left zero-gradient
condition. -/
theorem solid_tridiag_system_witness :
    2 ≤ solidCfgC3.len ∧
    (solveTw solidCfgC3 [2, 3, 4] [1, 1, 1]).getD 0 0 =
      (solveTw solidCfgC3 [2, 3, 4] [1, 1, 1]).getD 1 0 :=
  ⟨by decide,
   (solid_tridiag_system solidCfgC3 [2, 3, 4] [1, 1, 1] (by decide)).2.2.2.2.2⟩

/-- C5: convergence failure of the porous solid subsolver never escapes the
residual evaluation (the embedding is a total function); if the inner
two-flux loop hits its iteration cap (stall flag), then `dqnew` is frozen to
the current `dq` and the relaxation `dq := 0.1*dqnew + 0.9*dq` leaves the
net-flux field of that outer pass unchanged; if the outer loop exits with its
iteration cap (`fail1`), `solid` reverts the solid temperature field to its
value from before the solve and continues, returning the fallback values. -/
theorem solid_failure_semantics :
    (∀ (cfg : SolidCfg) (Twprev : List ℚ) (st : SolidSt),
        st.dq.length = cfg.len →
        (radLoop cfg (solveTw cfg st.dq Twprev)).fail = true →
        (outerStep cfg Twprev st).dq = st.dq) ∧
    (∀ (cfg : SolidCfg) (TwIn dqIn : List ℚ),
        (solidLoop cfg TwIn).fail1 = true →
        (solid cfg TwIn dqIn).1 = TwIn) := by
  constructor
  · intro cfg Twprev st hlen hfail
    simp only [outerStep, hfail, if_true]
    have hmap : ∀ i ∈ List.range cfg.len,
        (1:ℚ)/10 * st.dq.getD i 0 + (1 - 1/10) * st.dq.getD i 0 = st.dq.getD i 0 :=
      fun i _ => by ring
    split <;>
      simp only [List.map_congr_left hmap, map_range_getD_eq_self st.dq cfg.len hlen]
  · intro cfg TwIn dqIn hfail
    simp only [solid, hfail, if_true]

set_option maxHeartbeats 16000000 in
/-- Witness for C5: at the concrete configuration `solidCfgA` the inner
two-flux loop hits its cap and the outer pass leaves `dq` unchanged; at the
concrete configuration `solidCfgB` the outer loop hits its cap and `solid`
returns the entry solid temperature field `twB`. -/
theorem solid_failure_semantics_witness :
    (stA.dq.length = solidCfgA.len ∧
     (radLoop solidCfgA (solveTw solidCfgA stA.dq twZ)).fail = true ∧
     (outerStep solidCfgA twZ stA).dq = stA.dq) ∧
    ((solidLoop solidCfgB twB).fail1 = true ∧
     (solid solidCfgB twB twZ).1 = twB) := by
  have hA : (radLoop solidCfgA (solveTw solidCfgA stA.dq twZ)).fail = true := by
    with_unfolding_all rfl
  have hB : (solidLoop solidCfgB twB).fail1 = true := by
    with_unfolding_all rfl
  exact ⟨⟨rfl, hA, solid_failure_semantics.1 solidCfgA twZ stA rfl hA⟩,
    ⟨hB, solid_failure_semantics.2 solidCfgB twB twZ hB⟩⟩

end PorousFlow

end PMB

namespace PMB

theorem index_div (nsp n j : ℕ) (h : n < nv nsp) :
    index nsp n j / nv nsp = j := by
  rw [index, Nat.mul_add_div (by simp [nv] : 0 < nv nsp), Nat.div_eq_of_lt h,
    Nat.add_zero]

theorem index_mod (nsp n j : ℕ) (h : n < nv nsp) :
    index nsp n j % nv nsp = n := by
  rw [index, Nat.mul_add_mod, Nat.mod_eq_of_lt h]

theorem two_lt_nv (nsp : ℕ) : 2 < nv nsp := by simp only [nv]; omega

/-- C6: for every interior grid point whose energy-enable flag is cleared, a
whole-domain residual pass writes the temperature residual as
`T(x,j) - fixedProfile(j)` and marks that row algebraic (diag flag 0), in
both the base engine (either strategy) and the porous variant. -/
theorem eval_energy_disabled (k : FlowKind) (cfg : Cfg) (pc : PCfg) (st : St)
    (pst : PSt) (x rsdIn : ℕ → ℚ) (diagIn : ℕ → ℤ) (rdt : ℚ) (j j2 : ℕ)
    (hj0 : 0 < j) (hjL : j < cfg.points - 1) (hE : cfg.do_energy j = false)
    (hj02 : 0 < j2) (hjL2 : j2 < pc.base.points - 1)
    (hE2 : pc.base.do_energy j2 = false) :
    ((stEval k cfg none x rsdIn diagIn rdt st).2.1 (index cfg.nsp 2 j) =
        compT cfg.nsp x j - cfg.fixedtemp j ∧
     (stEval k cfg none x rsdIn diagIn rdt st).2.2 (index cfg.nsp 2 j) = 0) ∧
    ((porousEval pc none x rsdIn diagIn rdt pst).2.1 (index pc.base.nsp 2 j2) =
        compT pc.base.nsp x j2 - pc.base.fixedtemp j2 ∧
     (porousEval pc none x rsdIn diagIn rdt pst).2.2 (index pc.base.nsp 2 j2) = 0) := by
  have hguard : outOfRange cfg none = false := rfl
  have hguardP : outOfRange pc.base none = false := rfl
  have hd : index cfg.nsp 2 j / nv cfg.nsp = j := index_div _ _ _ (two_lt_nv _)
  have hm : index cfg.nsp 2 j % nv cfg.nsp = 2 := index_mod _ _ _ (two_lt_nv _)
  have hd2 : index pc.base.nsp 2 j2 / nv pc.base.nsp = j2 :=
    index_div _ _ _ (two_lt_nv _)
  have hm2 : index pc.base.nsp 2 j2 % nv pc.base.nsp = 2 :=
    index_mod _ _ _ (two_lt_nv _)
  constructor
  · constructor
    · simp only [stEval, hguard, Bool.false_eq_true, if_false, windowJ, hd, hm]
      rw [if_pos ⟨Nat.zero_le j, by omega⟩, if_neg (by omega : ¬ j = 0),
        if_neg (by omega : ¬ j = cfg.points - 1)]
      simp only [interiorRsd, hE, Bool.false_eq_true, if_false]
      norm_num
    · simp only [stEval, hguard, Bool.false_eq_true, if_false, windowJ, hd, hm]
      rw [if_pos ⟨Nat.zero_le j, by omega⟩, if_neg (by omega : ¬ j = 0),
        if_neg (by omega : ¬ j = cfg.points - 1)]
      simp only [interiorDiag, hE, Bool.false_eq_true, if_false]
      norm_num
  · constructor
    · simp only [porousEval, hguardP, Bool.false_eq_true, if_false, windowJ,
        hd2, hm2]
      rw [if_pos ⟨Nat.zero_le j2, by omega⟩, if_neg (by omega : ¬ j2 = 0),
        if_neg (by omega : ¬ j2 = pc.base.points - 1)]
      simp only [porousInteriorRsd, hE2, Bool.false_eq_true, if_false]
      norm_num
    · simp only [porousEval, hguardP, Bool.false_eq_true, if_false, windowJ,
        hd2, hm2]
      rw [if_pos ⟨Nat.zero_le j2, by omega⟩, if_neg (by omega : ¬ j2 = 0),
        if_neg (by omega : ¬ j2 = pc.base.points - 1)]
      simp only [interiorDiag, hE2, Bool.false_eq_true, if_false]
      norm_num

/-- Witness for C6 at the concrete 3-point configurations, interior point 1. -/
theorem eval_energy_disabled_witness :
    cfgE.do_energy 1 = false ∧ 1 < cfgE.points - 1 ∧
    (((stEval .axiStagn cfgE none xC1 (fun _ => 0) (fun _ => 7) 1 stC1).2.1
        (index cfgE.nsp 2 1) = compT cfgE.nsp xC1 1 - cfgE.fixedtemp 1 ∧
      (stEval .axiStagn cfgE none xC1 (fun _ => 0) (fun _ => 7) 1 stC1).2.2
        (index cfgE.nsp 2 1) = 0) ∧
     ((porousEval pcE none xC1 (fun _ => 0) (fun _ => 7) 1 pstE).2.1
        (index pcE.base.nsp 2 1) = compT pcE.base.nsp xC1 1 - pcE.base.fixedtemp 1 ∧
      (porousEval pcE none xC1 (fun _ => 0) (fun _ => 7) 1 pstE).2.2
        (index pcE.base.nsp 2 1) = 0)) :=
  ⟨rfl, by decide,
   eval_energy_disabled .axiStagn cfgE pcE stC1 pstE xC1 (fun _ => 0)
     (fun _ => 7) 1 1 1 (by decide) (by decide) rfl (by decide) (by decide) rfl⟩

end PMB

namespace PMB

/-- C7: for every call to `eval` restricted to a single in-range global grid
index (Jacobian perturbation mode), the result is independent of the `rdt`
argument (the relaxation rate is forced to zero), the transport caches
(`m_visc`, `m_tcon`, `m_diff`, `m_multidiff`, `m_dthermal`) are left exactly
as they were, while the thermodynamic caches and the diffusive fluxes are
still those produced by updating the stencil window; this holds for both
base-engine strategies and for the porous variant. -/
theorem eval_jacobian_mode (k : FlowKind) (cfg : Cfg) (pc : PCfg) (st : St)
    (pst : PSt) (x rsdIn : ℕ → ℚ) (diagIn : ℕ → ℤ) (rdt rdt2 : ℚ) (g : ℕ)
    (hin : outOfRange cfg (some g) = false)
    (hinP : outOfRange pc.base (some g) = false) :
    (stEval k cfg (some g) x rsdIn diagIn rdt st =
       stEval k cfg (some g) x rsdIn diagIn rdt2 st) ∧
    ((stEval k cfg (some g) x rsdIn diagIn rdt st).1.visc = st.visc ∧
     (stEval k cfg (some g) x rsdIn diagIn rdt st).1.tcon = st.tcon ∧
     (stEval k cfg (some g) x rsdIn diagIn rdt st).1.diff = st.diff ∧
     (stEval k cfg (some g) x rsdIn diagIn rdt st).1.multidiff = st.multidiff ∧
     (stEval k cfg (some g) x rsdIn diagIn rdt st).1.dthermal = st.dthermal) ∧
    ((stEval k cfg (some g) x rsdIn diagIn rdt st).1.rho =
       (updateThermo cfg x st (windowProp cfg (some g)).1
         (windowProp cfg (some g)).2).rho ∧
     (stEval k cfg (some g) x rsdIn diagIn rdt st).1.wtm =
       (updateThermo cfg x st (windowProp cfg (some g)).1
         (windowProp cfg (some g)).2).wtm ∧
     (stEval k cfg (some g) x rsdIn diagIn rdt st).1.cp =
       (updateThermo cfg x st (windowProp cfg (some g)).1
         (windowProp cfg (some g)).2).cp ∧
     (stEval k cfg (some g) x rsdIn diagIn rdt st).1.flux =
       (updateDiffFluxes cfg x
         (updateThermo cfg x st (windowProp cfg (some g)).1
           (windowProp cfg (some g)).2)
         (windowProp cfg (some g)).1 (windowProp cfg (some g)).2).flux) ∧
    (porousEval pc (some g) x rsdIn diagIn rdt pst =
       porousEval pc (some g) x rsdIn diagIn rdt2 pst) ∧
    ((porousEval pc (some g) x rsdIn diagIn rdt pst).1.stf.visc = pst.stf.visc ∧
     (porousEval pc (some g) x rsdIn diagIn rdt pst).1.stf.tcon = pst.stf.tcon ∧
     (porousEval pc (some g) x rsdIn diagIn rdt pst).1.stf.diff = pst.stf.diff ∧
     (porousEval pc (some g) x rsdIn diagIn rdt pst).1.stf.multidiff =
       pst.stf.multidiff ∧
     (porousEval pc (some g) x rsdIn diagIn rdt pst).1.stf.dthermal =
       pst.stf.dthermal) ∧
    ((porousEval pc (some g) x rsdIn diagIn rdt pst).1.stf.rho =
       (updateThermo pc.base x { pst.stf with dovisc := true }
         (windowProp pc.base (some g)).1 (windowProp pc.base (some g)).2).rho ∧
     (porousEval pc (some g) x rsdIn diagIn rdt pst).1.stf.flux =
       (updateDiffFluxes pc.base x
         (updateThermo pc.base x { pst.stf with dovisc := true }
           (windowProp pc.base (some g)).1 (windowProp pc.base (some g)).2)
         (windowProp pc.base (some g)).1 (windowProp pc.base (some g)).2).flux) := by
  refine ⟨?_, ⟨?_, ?_, ?_, ?_, ?_⟩, ⟨?_, ?_, ?_, ?_⟩, ?_, ⟨?_, ?_, ?_, ?_, ?_⟩,
    ⟨?_, ?_⟩⟩ <;>
    simp only [stEval, porousEval, hin, hinP, Bool.false_eq_true, if_false,
      effRdt, updateWdot, updateDiffFluxes, updateThermo]

/-- Witness for C7: in-range index 1 of the concrete 3-point domain; the
results with `rdt = 1` and `rdt = 0` coincide for both engines. -/
theorem eval_jacobian_mode_witness :
    outOfRange cfgE (some 1) = false ∧
    stEval .axiStagn cfgE (some 1) xC1 (fun _ => 0) (fun _ => 7) 1 stC1 =
      stEval .axiStagn cfgE (some 1) xC1 (fun _ => 0) (fun _ => 7) 0 stC1 ∧
    porousEval pcE (some 1) xC1 (fun _ => 0) (fun _ => 7) 1 pstE =
      porousEval pcE (some 1) xC1 (fun _ => 0) (fun _ => 7) 0 pstE :=
  ⟨rfl,
   (eval_jacobian_mode .axiStagn cfgE pcE stC1 pstE xC1 (fun _ => 0)
     (fun _ => 7) 1 0 1 rfl rfl).1,
   (eval_jacobian_mode .axiStagn cfgE pcE stC1 pstE xC1 (fun _ => 0)
     (fun _ => 7) 1 0 1 rfl rfl).2.2.2.1⟩

/-- C10: if `eval` is called in Jacobian mode with a global index outside
this domain's window of influence, it returns immediately: the caller-owned
residual and flag buffers and all cached engine state (property caches,
fluxes, radiation, and in the porous variant also the porous member fields
and the `dosolid` trigger) are returned unchanged; this holds for both
base-engine strategies and for the porous variant. -/
theorem eval_out_of_range_frame (k : FlowKind) (cfg : Cfg) (pc : PCfg)
    (st : St) (pst : PSt) (x rsdIn : ℕ → ℚ) (diagIn : ℕ → ℤ) (rdt : ℚ)
    (g g2 : ℕ) (h : outOfRange cfg (some g) = true)
    (h2 : outOfRange pc.base (some g2) = true) :
    stEval k cfg (some g) x rsdIn diagIn rdt st = (st, rsdIn, diagIn) ∧
    porousEval pc (some g2) x rsdIn diagIn rdt pst = (pst, rsdIn, diagIn) := by
  constructor
  · simp only [stEval, h, if_true]
  · simp only [porousEval, h2, if_true]

/-- Witness for C10: global index 10 lies outside the 3-point domain placed
at firstPoint 0 (lastPoint 2), and both engines return their inputs. -/
theorem eval_out_of_range_frame_witness :
    outOfRange cfgE (some 10) = true ∧ outOfRange pcE.base (some 10) = true ∧
    (stEval .freeFlame cfgE (some 10) xC1 (fun _ => 0) (fun _ => 7) 1 stC1 =
       (stC1, fun _ => 0, fun _ => 7) ∧
     porousEval pcE (some 10) xC1 (fun _ => 0) (fun _ => 7) 1 pstE =
       (pstE, fun _ => 0, fun _ => 7)) :=
  ⟨by decide, by decide,
   eval_out_of_range_frame .freeFlame cfgE pcE stC1 pstE xC1 (fun _ => 0)
     (fun _ => 7) 1 10 10 (by decide) (by decide)⟩

end PMB

namespace PMB

namespace FreeFlame

theorem find_range_unique (p : ℕ → Bool) :
    ∀ n j0, j0 < n → p j0 = true → (∀ j, j < n → p j = true → j = j0) →
      (List.range n).find? p = some j0 := by
  intro n
  induction n with
  | zero => intro j0 h; exact absurd h (Nat.not_lt_zero _)
  | succ n ih =>
      intro j0 hj0 hp huniq
      rw [List.range_succ, List.find?_append]
      by_cases hlt : j0 < n
      · rw [ih j0 hlt hp (fun j hj hpj => huniq j (Nat.lt_succ_of_lt hj) hpj)]
        rfl
      · have hj0n : j0 = n := by omega
        subst hj0n
        have hnone : (List.range j0).find? p = none := by
          rw [List.find?_eq_none]
          intro x hx hpx
          have hxj : x = j0 := huniq x (Nat.lt_succ_of_lt (List.mem_range.mp hx)) hpx
          have hxn : x < j0 := List.mem_range.mp hx
          omega
        rw [hnone]
        simp [List.find?, hp]

/-- C8: for the free-propagating-flame variant with an anchor temperature
set, if some grid point coordinate already equals the anchor coordinate,
`_finalize` leaves the anchor unchanged; otherwise, if the temperature
profile crosses the anchor temperature exactly once between two adjacent grid
points (bracketing product nonpositive at a unique interval `j0`),
`_finalize` relocates the anchor to that interval's right endpoint:
coordinate `z(j0+1)`, temperature `T(x,j0+1)`. -/
theorem finalizeAnchor_spec (pts : ℕ) (z Tx : ℕ → ℚ) (zfix tfix : ℚ)
    (hset : tfix ≠ Undef) :
    ((∃ j, j < pts ∧ z j = zfix) →
      finalizeAnchor pts z Tx zfix tfix = (zfix, tfix)) ∧
    (∀ j0, (∀ j, j < pts → z j ≠ zfix) → j0 < pts - 1 →
      (Tx j0 - tfix) * (Tx (j0 + 1) - tfix) ≤ 0 →
      (∀ j, j < pts - 1 → (Tx j - tfix) * (Tx (j + 1) - tfix) ≤ 0 → j = j0) →
      finalizeAnchor pts z Tx zfix tfix = (z (j0 + 1), Tx (j0 + 1))) := by
  constructor
  · rintro ⟨j, hj, hz⟩
    unfold finalizeAnchor
    rw [if_neg hset, if_pos]
    rw [List.any_eq_true]
    exact ⟨j, List.mem_range.mpr hj, decide_eq_true hz⟩
  · intro j0 hnone hj0 hcross huniq
    have hfind : findCross pts Tx tfix = some j0 := by
      unfold findCross
      exact find_range_unique _ _ _ hj0 (decide_eq_true hcross)
        (fun j hj hpj => huniq j hj (of_decide_eq_true hpj))
    unfold finalizeAnchor
    rw [if_neg hset, if_neg, hfind]
    rw [List.any_eq_true]
    rintro ⟨j, hjm, hpj⟩
    exact hnone j (List.mem_range.mp hjm) (of_decide_eq_true hpj)

/-- Witness for C8: on the grid `0, 1, 2` with anchor coordinate `5` (at no
grid point) and anchor temperature `10`, the profile `0, 5, 20` crosses `10`
exactly once, between points 1 and 2, and the anchor moves to `(z 2, T 2)`. -/
theorem finalizeAnchor_spec_witness :
    (10 : ℚ) ≠ Undef ∧
    (∀ j, j < 3 → StFlow.zIncr j ≠ (5 : ℚ)) ∧
    1 < 3 - 1 ∧
    (TxC8 1 - 10) * (TxC8 (1 + 1) - 10) ≤ 0 ∧
    (∀ j, j < 3 - 1 → (TxC8 j - 10) * (TxC8 (j + 1) - 10) ≤ 0 → j = 1) ∧
    finalizeAnchor 3 StFlow.zIncr TxC8 5 10 = (StFlow.zIncr (1 + 1), TxC8 (1 + 1)) := by
  refine ⟨by with_unfolding_all decide, by with_unfolding_all decide, by decide,
    by with_unfolding_all decide, by with_unfolding_all decide, ?_⟩
  exact (finalizeAnchor_spec 3 StFlow.zIncr TxC8 5 10
      (by with_unfolding_all decide)).2 1
    (by with_unfolding_all decide) (by decide)
    (by with_unfolding_all decide) (by with_unfolding_all decide)

end FreeFlame

end PMB

namespace PMB

namespace StFlow

theorem gridPhase_np (opt : TransportOption) (nsp : ℕ) (prev : ResizeSizes)
    (arrays : List (String × List ℚ)) (g : ℕ × List ℚ × List ℚ)
    (h : gridPhase opt nsp prev arrays = .ok g) :
    g.1 = gridLenOf arrays := by
  unfold gridPhase at h
  split at h
  · exact Except.noConfusion h
  · split at h
    · split at h
      · injection h with h2
        rw [← h2]
      · exact Except.noConfusion h
    · exact Except.noConfusion h

theorem restore_np (opt : TransportOption) (nsp : ℕ) (prev : ResizeSizes)
    (spIdx : String → Option ℕ) (solnIn : ℕ → ℚ) (doE doS : List Bool)
    (dom : RestoreDom) (st : RestoreSt)
    (h : restore opt nsp prev spIdx solnIn doE doS dom = .ok st) :
    st.np = gridLenOf dom.arrays := by
  unfold restore at h
  split at h
  · exact Except.noConfusion h
  · next g hg =>
      split at h
      · exact Except.noConfusion h
      · split at h
        · exact Except.noConfusion h
        · injection h with h2
          rw [← h2]
          exact gridPhase_np _ _ _ _ _ hg

theorem dataPhase_error_of_mem (nsp : ℕ) (spIdx : String → Option ℕ)
    (np : ℕ) (mz : List ℚ) (l : List (String × List ℚ))
    (bad : String × List ℚ)
    (hbad : ∀ d, exceptIsError (dataStep nsp spIdx np mz d bad) = true) :
    bad ∈ l → ∀ d, exceptIsError (dataPhase nsp spIdx np mz l d) = true := by
  induction l with
  | nil => intro hmem; cases hmem
  | cons a as ih =>
      intro hmem d
      rcases List.mem_cons.mp hmem with h1 | h2
      · subst h1
        cases hstep : dataStep nsp spIdx np mz d bad with
        | error e => simp only [dataPhase, hstep, exceptIsError]
        | ok d2 =>
            have hb := hbad d
            rw [hstep] at hb
            simp [exceptIsError] at hb
      · cases hstep : dataStep nsp spIdx np mz d a with
        | error e => simp only [dataPhase, hstep, exceptIsError]
        | ok d2 =>
            simp only [dataPhase, hstep]
            exact ih h2 d2

/-- C9 counterexample: a nonempty `species_enabled` array of the wrong length
(three entries against one species) raises no error at all: `restore`
succeeds and silently re-enables every species equation (lines 766-775). -/
theorem restore_species_mismatch_no_error_cex :
    speciesFlagsOf (restore .mixav 1 prevSizes PorousFlow.spIdxC9
      (fun _ => 0) [false] [false] PorousFlow.domC9) = some [true] := by
  with_unfolding_all rfl

/-- C9 (amended): length-mismatch errors in `restore`.  A nonempty `u`, `V`,
`T` or `L` dataset whose length differs from the grid's point count throws,
as does a nonempty `energy_enabled` array of the wrong length, and in the
porous variant a nonempty `Tsolid` (first) or `Hconv` (last) solid array of
the wrong length; each error propagates to the caller.  (A mismatched
`species_enabled` array or species dataset does not throw: see the
counterexample.) -/
theorem restore_length_mismatch_errors (opt : TransportOption) (nsp : ℕ)
    (prev : ResizeSizes) (spIdx : String → Option ℕ) (solnIn : ℕ → ℚ)
    (doE doS : List Bool) (old : PorousFlow.SolidMembers)
    (dom : RestoreDom) (sdom : Option PorousFlow.SolidDom) :
    (∀ nm vals, (nm, vals) ∈ dom.arrays →
      (nm = "u" ∨ nm = "V" ∨ nm = "T" ∨ nm = "L") →
      vals.length ≠ gridLenOf dom.arrays →
      exceptIsError (restore opt nsp prev spIdx solnIn doE doS dom) = true) ∧
    (∀ l, dom.energy_enabled = some l → l ≠ [] →
      l.length ≠ gridLenOf dom.arrays →
      exceptIsError (restore opt nsp prev spIdx solnIn doE doS dom) = true) ∧
    (∀ sd, sdom = some sd → sd.Tsolid ≠ [] →
      sd.Tsolid.length ≠ gridLenOf dom.arrays →
      exceptIsError (PorousFlow.restore opt nsp prev spIdx solnIn doE doS
        old dom sdom) = true) ∧
    (∀ sd, sdom = some sd → sd.Hconv ≠ [] →
      sd.Hconv.length ≠ gridLenOf dom.arrays →
      exceptIsError (PorousFlow.restore opt nsp prev spIdx solnIn doE doS
        old dom sdom) = true) := by
  refine ⟨?_, ?_, ?_, ?_⟩
  · intro nm vals hmem hnm hlen
    cases hg : gridPhase opt nsp prev dom.arrays with
    | error e => simp only [restore, hg, exceptIsError]
    | ok g =>
        have hnp : g.1 = gridLenOf dom.arrays := gridPhase_np _ _ _ _ _ hg
        have hlen2 : ¬ (vals.length = g.1) := fun h => hlen (h.trans hnp)
        have hbad : ∀ d, exceptIsError
            (dataStep nsp spIdx g.1 g.2.1 d (nm, vals)) = true := by
          intro d
          rcases hnm with h | h | h | h <;> subst h <;>
            simp [dataStep, exceptIsError, hlen2]
        cases hd : dataPhase nsp spIdx g.1 g.2.1 dom.arrays
            ⟨solnIn, [], [], doE, doS⟩ with
        | error e => simp only [restore, hg, hd, exceptIsError]
        | ok d1 =>
            have herr := dataPhase_error_of_mem nsp spIdx g.1 g.2.1
              dom.arrays (nm, vals) hbad hmem ⟨solnIn, [], [], doE, doS⟩
            rw [hd] at herr
            simp [exceptIsError] at herr
  · intro l hl hne hlen
    cases hg : gridPhase opt nsp prev dom.arrays with
    | error e => simp only [restore, hg, exceptIsError]
    | ok g =>
        have hnp : g.1 = gridLenOf dom.arrays := gridPhase_np _ _ _ _ _ hg
        cases hd : dataPhase nsp spIdx g.1 g.2.1 dom.arrays
            ⟨solnIn, [], [], doE, doS⟩ with
        | error e => simp only [restore, hg, hd, exceptIsError]
        | ok d1 =>
            have hc : ¬ (l.length = g.1) := fun h => hlen (h.trans hnp)
            have he : energyPhase g.1 dom.energy_enabled d1
                = .error "energy_enabled has wrong length" := by
              rw [hl]
              simp only [energyPhase]
              rw [if_neg hc, if_neg hne]
            simp only [restore, hg, hd, he, exceptIsError]
  · intro sd hsd hne hlen
    cases hb : restore opt nsp prev spIdx solnIn doE doS dom with
    | error e => simp only [PorousFlow.restore, hb, exceptIsError]
    | ok st =>
        have hnp : st.np = gridLenOf dom.arrays :=
          restore_np _ _ _ _ _ _ _ _ _ hb
        have hTw : PorousFlow.solidField st.np old.Tw sd.Tsolid
            "Tw length mismatch" = .error "Tw length mismatch" := by
          unfold PorousFlow.solidField
          rw [if_neg (fun h => hlen (h.trans hnp)), if_neg hne]
        simp only [PorousFlow.restore, hb, hsd, hTw, exceptIsError]
  · intro sd hsd hne hlen
    cases hb : restore opt nsp prev spIdx solnIn doE doS dom with
    | error e => simp only [PorousFlow.restore, hb, exceptIsError]
    | ok st =>
        have hnp : st.np = gridLenOf dom.arrays :=
          restore_np _ _ _ _ _ _ _ _ _ hb
        have hH : PorousFlow.solidField st.np old.hconv sd.Hconv
            "hconv length mismatch" = .error "hconv length mismatch" := by
          unfold PorousFlow.solidField
          rw [if_neg (fun h => hlen (h.trans hnp)), if_neg hne]
        cases hTw : PorousFlow.solidField st.np old.Tw sd.Tsolid
            "Tw length mismatch" with
        | error e => simp only [PorousFlow.restore, hb, hsd, hTw, exceptIsError]
        | ok tw =>
        cases hdq : PorousFlow.solidField st.np old.dq sd.Radiation
            "dq length mismatch" with
        | error e =>
            simp only [PorousFlow.restore, hb, hsd, hTw, hdq, exceptIsError]
        | ok dq2 =>
        cases hpo : PorousFlow.solidField st.np old.pore sd.Porosity
            "Porosity length mismatch" with
        | error e =>
            simp only [PorousFlow.restore, hb, hsd, hTw, hdq, hpo, exceptIsError]
        | ok pore2 =>
        cases hdi : PorousFlow.solidField st.np old.diam sd.Diameter
            "diam length mismatch" with
        | error e =>
            simp only [PorousFlow.restore, hb, hsd, hTw, hdq, hpo, hdi,
              exceptIsError]
        | ok diam2 =>
        cases hsc : PorousFlow.solidField st.np old.scond sd.SolidConductivity
            "scond length mismatch" with
        | error e =>
            simp only [PorousFlow.restore, hb, hsd, hTw, hdq, hpo, hdi, hsc,
              exceptIsError]
        | ok scond2 =>
            simp only [PorousFlow.restore, hb, hsd, hTw, hdq, hpo, hdi, hsc,
              hH, exceptIsError]

/-- Witness for C9: concrete domains exercising all four mismatch cases — a
three-entry `u` dataset, `energy_enabled`, `Tsolid` and `Hconv` arrays
against two-point grids — each making restore return an error. -/
theorem restore_length_mismatch_errors_witness :
    (("u", [1, 2, 3]) ∈ PorousFlow.domC9u.arrays ∧
     ([1, 2, 3] : List ℚ).length ≠ gridLenOf PorousFlow.domC9u.arrays ∧
     exceptIsError (restore .mixav 1 prevSizes PorousFlow.spIdxC9
       (fun _ => 0) [false] [false] PorousFlow.domC9u) = true) ∧
    (PorousFlow.domC9e.energy_enabled = some [1, 1, 1] ∧
     ([1, 1, 1] : List ℚ) ≠ [] ∧
     ([1, 1, 1] : List ℚ).length ≠ gridLenOf PorousFlow.domC9e.arrays ∧
     exceptIsError (restore .mixav 1 prevSizes PorousFlow.spIdxC9
       (fun _ => 0) [false] [false] PorousFlow.domC9e) = true) ∧
    (PorousFlow.sdomC9.Tsolid ≠ [] ∧
     PorousFlow.sdomC9.Tsolid.length ≠ gridLenOf PorousFlow.domC9p.arrays ∧
     exceptIsError (PorousFlow.restore .mixav 1 prevSizes PorousFlow.spIdxC9
       (fun _ => 0) [false] [false] PorousFlow.oldC9 PorousFlow.domC9p
       (some PorousFlow.sdomC9)) = true) ∧
    (PorousFlow.sdomC9h.Hconv ≠ [] ∧
     PorousFlow.sdomC9h.Hconv.length ≠ gridLenOf PorousFlow.domC9p.arrays ∧
     exceptIsError (PorousFlow.restore .mixav 1 prevSizes PorousFlow.spIdxC9
       (fun _ => 0) [false] [false] PorousFlow.oldC9 PorousFlow.domC9p
       (some PorousFlow.sdomC9h)) = true) := by
  refine ⟨⟨by with_unfolding_all decide, by with_unfolding_all decide, ?_⟩,
    ⟨by with_unfolding_all rfl, by with_unfolding_all decide,
     by with_unfolding_all decide, ?_⟩,
    ⟨by with_unfolding_all decide, by with_unfolding_all decide, ?_⟩,
    ⟨by with_unfolding_all decide, by with_unfolding_all decide, ?_⟩⟩
  · exact (restore_length_mismatch_errors .mixav 1 prevSizes
      PorousFlow.spIdxC9 (fun _ => 0) [false] [false] PorousFlow.oldC9
      PorousFlow.domC9u none).1 "u" [1, 2, 3]
      (by with_unfolding_all decide) (Or.inl rfl)
      (by with_unfolding_all decide)
  · exact (restore_length_mismatch_errors .mixav 1 prevSizes
      PorousFlow.spIdxC9 (fun _ => 0) [false] [false] PorousFlow.oldC9
      PorousFlow.domC9e none).2.1 [1, 1, 1] (by with_unfolding_all rfl)
      (by with_unfolding_all decide) (by with_unfolding_all decide)
  · exact (restore_length_mismatch_errors .mixav 1 prevSizes
      PorousFlow.spIdxC9 (fun _ => 0) [false] [false] PorousFlow.oldC9
      PorousFlow.domC9p (some PorousFlow.sdomC9)).2.2.1 PorousFlow.sdomC9
      rfl (by with_unfolding_all decide) (by with_unfolding_all decide)
  · exact (restore_length_mismatch_errors .mixav 1 prevSizes
      PorousFlow.spIdxC9 (fun _ => 0) [false] [false] PorousFlow.oldC9
      PorousFlow.domC9p (some PorousFlow.sdomC9h)).2.2.2 PorousFlow.sdomC9h
      rfl (by with_unfolding_all decide) (by with_unfolding_all decide)

end StFlow

end PMB
